import Mathlib

/-
  Verification development for the mp-writer-mcp-server repository.

  The definitions below are a shallow embedding, translated from the Rust
  sources:
    - src/core/cache.rs            (ephemeral CacheManager)
    - src/core/error.rs            (AppError taxonomy)
    - src/features/research/helpers.rs and service.rs (research engine)
    - src/features/parliament/client.rs (resilient fetch engine)
    - src/features/mcp/service.rs and dto.rs (protocol dispatcher)

  JSON values (serde_json::Value) are embedded as the inductive `Json`;
  numbers that Rust stores as i64/u64 are embedded as `Json.int`, other
  numbers as `Json.float` carrying their textual form (the modelled code
  never does arithmetic on them).  Machine integers (u32, u64, usize) are
  embedded as `Nat`: none of the modelled operations can overflow them
  (lengths, limits, timestamps).  `f32` relevance thresholds are embedded
  as `Rat`; the modelled code only stores and forwards them.  Rust string
  operations (`trim`, `to_lowercase`, `eq_ignore_ascii_case`,
  `split_whitespace`) are embedded via their Lean counterparts, which agree
  with Rust on ASCII input.
-/

/-- Shallow embedding of serde_json::Value. -/
inductive Json where
  | null : Json
  | bool (b : Bool) : Json
  | int (n : Int) : Json
  | float (text : String) : Json
  | str (s : String) : Json
  | arr (items : List Json) : Json
  | obj (fields : List (String × Json)) : Json
deriving Inhabited

/-- Value::as_array. -/
def Json.as_array : Json → Option (List Json)
  | .arr items => some items
  | _ => none

/-- Value::as_str. -/
def Json.as_str : Json → Option String
  | .str s => some s
  | _ => none

/-- Value::as_i64: only integral numbers in the i64 range qualify. -/
def Json.as_i64 : Json → Option Int
  | .int n => if -(2 ^ 63) ≤ n ∧ n < 2 ^ 63 then some n else none
  | _ => none

/-- Value::as_u64: only non-negative integral numbers in the u64 range. -/
def Json.as_u64 : Json → Option Nat
  | .int n => if 0 ≤ n ∧ n < 2 ^ 64 then some n.toNat else none
  | _ => none

/-- Value::is_object. -/
def Json.is_object : Json → Bool
  | .obj _ => true
  | _ => false

/-- Value::get(key): case-sensitive object field lookup (serde_json). -/
def Json.get : Json → String → Option Json
  | .obj fields, key => (fields.find? (fun p => p.fst == key)).map (fun p => p.snd)
  | _, _ => none

/-- str::is_empty. -/
def strIsEmpty (s : String) : Bool :=
  s.data.isEmpty

/-- str::to_lowercase; `Char.toLower` lowers exactly ASCII. -/
def rustToLowercase (s : String) : String :=
  String.mk (s.data.map Char.toLower)

/-- str::trim: remove leading and trailing whitespace. -/
def rustTrim (s : String) : String :=
  String.mk (((s.data.dropWhile Char.isWhitespace).reverse.dropWhile Char.isWhitespace).reverse)

/-- str::eq_ignore_ascii_case. -/
def eqIgnoreAsciiCase (a b : String) : Bool :=
  rustToLowercase a == rustToLowercase b

/-- str::split_whitespace: maximal runs of non-whitespace characters. -/
def splitWhitespaceGo : List Char → List Char → List String
  | [], acc => if acc.isEmpty then [] else [String.mk acc.reverse]
  | c :: rest, acc =>
    if c.isWhitespace then
      if acc.isEmpty then splitWhitespaceGo rest []
      else String.mk acc.reverse :: splitWhitespaceGo rest []
    else splitWhitespaceGo rest (c :: acc)

/-- str::split_whitespace. -/
def splitWhitespace (s : String) : List String :=
  splitWhitespaceGo s.data []

/-- Lexicographic comparison of char lists; on strings this agrees with
Rust's Ord for str (UTF-8 byte order coincides with code-point order). -/
def charListLt : List Char → List Char → Bool
  | [], [] => false
  | [], _ :: _ => true
  | _ :: _, [] => false
  | a :: as, b :: bs => if a < b then true else if b < a then false else charListLt as bs

/-- str Ord's strict order. -/
def stringLtB (a b : String) : Bool :=
  charListLt a.data b.data

/-- AppError from src/core/error.rs. -/
inductive AppError where
  | configuration (message : String) : AppError
  | badRequest (message : String) : AppError
  | upstream (message : String) (data : Option Json) : AppError
  | internal (message : String) : AppError
deriving Inhabited

/-- The thiserror-derived Display implementation for AppError. -/
def AppError.display : AppError → String
  | .configuration message => "configuration error: " ++ message
  | .badRequest message => "bad request: " ++ message
  | .upstream message _ => "upstream error: " ++ message
  | .internal message => "internal error: " ++ message

/-! ## Ephemeral cache (src/core/cache.rs)

The `HashMap<String, CacheEntry>` store is embedded as an association list
kept free of duplicate keys (insert removes the old binding first); `Instant`
is embedded as `Nat`.  `remove` removes the binding of a key, `get`/`insert`
take the current instant explicitly. -/

structure CacheEntry where
  value : Json
  expires_at : Nat

structure CacheManager where
  enabled : Bool
  capacity : Nat
  store : List (String × CacheEntry)

/-- HashMap::get on the embedded store. -/
def storeLookup (store : List (String × CacheEntry)) (key : String) : Option CacheEntry :=
  (store.find? (fun p => p.fst == key)).map (fun p => p.snd)

/-- HashMap::remove on the embedded store. -/
def storeRemove (store : List (String × CacheEntry)) (key : String) :
    List (String × CacheEntry) :=
  store.filter (fun p => !(p.fst == key))

/-- CacheManager::new. -/
def CacheManager.mkNew (enabled : Bool) (capacity : Nat) : CacheManager :=
  { enabled := enabled, capacity := capacity, store := [] }

/-- CacheManager::get: returns the stored value only while unexpired; any
other outcome removes the key (a no-op when the key was absent). -/
def CacheManager.get (c : CacheManager) (now : Nat) (key : String) :
    Option Json × CacheManager :=
  if c.enabled = false then
    (none, c)
  else
    match storeLookup c.store key with
    | some entry =>
      if now ≤ entry.expires_at then
        (some entry.value, c)
      else
        (none, { c with store := storeRemove c.store key })
    | none => (none, { c with store := storeRemove c.store key })

/-- CacheManager::insert: no-op when disabled; at capacity, evicts one
expired entry if any exists, else the first entry of the store (the
HashMap iteration order is arbitrary; the embedding picks the list head). -/
def CacheManager.insert (c : CacheManager) (now : Nat) (key : String) (value : Json)
    (ttl_seconds : Nat) : CacheManager :=
  if c.enabled = false then
    c
  else
    let expires_at := now + ttl_seconds
    let evicted :=
      if c.capacity ≤ c.store.length then
        match c.store.find? (fun p => p.snd.expires_at ≤ now) with
        | some expired => storeRemove c.store expired.fst
        | none =>
          match c.store.head? with
          | some first => storeRemove c.store first.fst
          | none => c.store
      else c.store
    { c with store := (key, { value := value, expires_at := expires_at }) :: storeRemove evicted key }

theorem storeLookup_storeRemove_self (store : List (String × CacheEntry)) (key : String) :
    storeLookup (storeRemove store key) key = none := by
  induction store with
  | nil => rfl
  | cons head tail ih =>
    by_cases h : head.fst = key
    · have hdrop : storeRemove (head :: tail) key = storeRemove tail key := by
        simp [storeRemove, List.filter_cons, h]
      rw [hdrop]; exact ih
    · have hkeep : storeRemove (head :: tail) key = head :: storeRemove tail key := by
        simp [storeRemove, List.filter_cons, h]
      rw [hkeep]
      simp only [storeLookup] at ih ⊢
      rw [List.find?_cons_of_neg _ (by simpa using h)]
      exact ih

/-- A disabled cache never gains entries. -/
theorem disabled_insert_id (c : CacheManager) (now : Nat) (key : String) (value : Json)
    (ttl : Nat) (h : c.enabled = false) :
    CacheManager.insert c now key value ttl = c := by
  simp [CacheManager.insert, h]

/-- C6: for a key present in the ephemeral cache (which requires the cache
to be enabled, since a disabled cache never gains entries), `get` returns
the stored value iff the current instant is at or before the entry's
expiry; it never returns an expired value, and finding the entry expired
removes the key from the store. -/
theorem C6_ephemeral_cache_get (c : CacheManager) (key : String) (entry : CacheEntry)
    (now : Nat) (henabled : c.enabled = true)
    (hfound : storeLookup c.store key = some entry) :
    ((CacheManager.get c now key).fst = some entry.value ↔ now ≤ entry.expires_at)
    ∧ (entry.expires_at < now →
        (CacheManager.get c now key).fst = none
        ∧ storeLookup (CacheManager.get c now key).snd.store key = none) := by
  constructor
  · constructor
    · intro hret
      by_contra hlt
      simp [CacheManager.get, henabled, hfound, hlt] at hret
    · intro hle
      simp [CacheManager.get, henabled, hfound, hle]
  · intro hexp
    have hnot : ¬ now ≤ entry.expires_at := by omega
    refine ⟨?_, ?_⟩
    · simp [CacheManager.get, henabled, hfound, hnot]
    · simp [CacheManager.get, henabled, hfound, hnot, storeLookup_storeRemove_self]

theorem C6_ephemeral_cache_get_witness :
    (((CacheManager.get
        { enabled := true, capacity := 8,
          store := [("k", { value := Json.int 7, expires_at := 5 })] } 9 "k").fst
      = some (Json.int 7) ↔ 9 ≤ 5)
    ∧ (5 < 9 →
        (CacheManager.get
          { enabled := true, capacity := 8,
            store := [("k", { value := Json.int 7, expires_at := 5 })] } 9 "k").fst = none
        ∧ storeLookup (CacheManager.get
            { enabled := true, capacity := 8,
              store := [("k", { value := Json.int 7, expires_at := 5 })] } 9 "k").snd.store "k"
          = none)) :=
  C6_ephemeral_cache_get
    { enabled := true, capacity := 8,
      store := [("k", { value := Json.int 7, expires_at := 5 })] }
    "k" { value := Json.int 7, expires_at := 5 } 9 rfl rfl

/-! ## Research request and cache key (src/features/research/dto.rs, helpers.rs) -/

structure ResearchRequestDto where
  topic : String
  bill_keywords : List String
  debate_keywords : List String
  mp_id : Option Nat
  include_state_of_parties : Bool
  limit : Option Nat
deriving DecidableEq

def DEFAULT_RESULT_LIMIT : Nat := 5

def MAX_RESULT_LIMIT : Nat := 10

/-- coerce_limit from helpers.rs:
`limit.filter(|v| *v > 0).map(|v| v.min(MAX_RESULT_LIMIT)).unwrap_or(DEFAULT_RESULT_LIMIT)`. -/
def coerce_limit (limit : Option Nat) : Nat :=
  match limit with
  | some value => if 0 < value then min value MAX_RESULT_LIMIT else DEFAULT_RESULT_LIMIT
  | none => DEFAULT_RESULT_LIMIT

/-- The trim-drop-empty-lowercase normalisation applied to each keyword
list inside build_cache_key. -/
def normalizeKeywordList (values : List String) : List String :=
  values.filterMap (fun value =>
    let trimmed := rustTrim value
    if strIsEmpty trimmed then none else some (rustToLowercase trimmed))

/-- Stable insertion of a string into an ascending list: placed before the
first strictly greater element, after equal ones. -/
def insertSorted (x : String) : List String → List String
  | [] => [x]
  | y :: ys => if stringLtB x y then x :: y :: ys else y :: insertSorted x ys

/-- Vec::sort on strings (ascending, stable; insertion sort produces the
same output as any stable sort under the same total order). -/
def sortStrings (values : List String) : List String :=
  values.foldr insertSorted []

/-- Rust bool Display. -/
def boolDisplay (b : Bool) : String :=
  if b then "true" else "false"

/-- build_cache_key from helpers.rs.  Note the final component: the source
formats `request.limit.unwrap_or(DEFAULT_RESULT_LIMIT)`, the raw requested
limit with only the absent case defaulted, not `coerce_limit`. -/
def build_cache_key (request : ResearchRequestDto) : String :=
  "topic:" ++ rustToLowercase (rustTrim request.topic)
    ++ "|bills:" ++ String.intercalate "," (sortStrings (normalizeKeywordList request.bill_keywords))
    ++ "|debates:" ++ String.intercalate "," (sortStrings (normalizeKeywordList request.debate_keywords))
    ++ "|mp:" ++ (match request.mp_id with
        | some value => toString value
        | none => "none")
    ++ "|state:" ++ boolDisplay request.include_state_of_parties
    ++ "|limit:" ++ toString (request.limit.getD DEFAULT_RESULT_LIMIT)

/-- C4 counterexample: a request with an absent limit and the same request
with limit 0 coerce to the same effective limit (5), yet produce different
cache keys, because build_cache_key uses the raw limit defaulted to 5
rather than the coerced limit. -/
theorem C4_cache_key_counterexample :
    coerce_limit none = coerce_limit (some 0)
    ∧ build_cache_key
        { topic := "climate", bill_keywords := [], debate_keywords := [],
          mp_id := none, include_state_of_parties := false, limit := none }
      ≠ build_cache_key
        { topic := "climate", bill_keywords := [], debate_keywords := [],
          mp_id := none, include_state_of_parties := false, limit := some 0 } := by
  constructor
  · rfl
  · decide

/-- C4 (amended): the canonical durable-cache key is computed from the
normalized (trimmed, lower-cased) topic, the sorted and lower-cased bill
and debate keyword lists, the optional MP id, the party-balance flag, and
the raw requested limit defaulting to 5 when absent (the >0 filter and the
cap at 10 of the effective limit are not applied to the key); in
particular, two requests that differ only between an absent limit and an
explicit limit of 5 produce the same cache key, while a limit of 0 —
coerced to the same effective value 5 — produces a different key. -/
theorem C4_cache_key_determined (r1 r2 : ResearchRequestDto)
    (htopic : rustToLowercase (rustTrim r1.topic) = rustToLowercase (rustTrim r2.topic))
    (hbills : sortStrings (normalizeKeywordList r1.bill_keywords)
      = sortStrings (normalizeKeywordList r2.bill_keywords))
    (hdebates : sortStrings (normalizeKeywordList r1.debate_keywords)
      = sortStrings (normalizeKeywordList r2.debate_keywords))
    (hmp : r1.mp_id = r2.mp_id)
    (hstate : r1.include_state_of_parties = r2.include_state_of_parties)
    (hlimit : r1.limit.getD DEFAULT_RESULT_LIMIT = r2.limit.getD DEFAULT_RESULT_LIMIT) :
    build_cache_key r1 = build_cache_key r2 := by
  simp only [build_cache_key, htopic, hbills, hdebates, hmp, hstate, hlimit]

theorem C4_cache_key_determined_witness :
    build_cache_key
        { topic := "Climate ", bill_keywords := ["NHS", ""], debate_keywords := [],
          mp_id := some 7, include_state_of_parties := true, limit := none }
      = build_cache_key
        { topic := "climate", bill_keywords := ["nhs"], debate_keywords := [],
          mp_id := some 7, include_state_of_parties := true, limit := some 5 } :=
  C4_cache_key_determined _ _ (by decide) (by decide) (by decide) (by decide) (by decide)
    (by decide)

/-! ## Resilient fetch engine (src/features/parliament/client.rs)

The HTTP transport is embedded as an oracle `responses : Nat → AttemptOutcome`
giving the outcome of each attempt (0-based).  A 2xx response carries the
JSON-parse result of its body; a non-2xx response carries its status code
and body text; a transport failure carries its error message.  `sleep`
calls are recorded as a list of millisecond durations.  The Display of
reqwest's StatusCode is abstracted as the bare status number (the claims
never inspect that text). -/

def RETRY_ATTEMPTS : Nat := 3

def RETRY_DELAY_MS : Nat := 500

inductive AttemptOutcome where
  | success (parse : Except String Json) : AttemptOutcome
  | httpError (status : Nat) (body : String) : AttemptOutcome
  | transportError (message : String) : AttemptOutcome

def AttemptOutcome.isSuccess : AttemptOutcome → Bool
  | .success _ => true
  | _ => false

/-- The structured error recorded for a failed attempt inside
execute_request (no 429 hint there; body snippet capped at 512 chars). -/
def recordedError (url : String) : AttemptOutcome → Option AppError
  | .success _ => none
  | .httpError status body =>
    some (AppError.upstream ("request to " ++ url ++ " failed with " ++ toString status)
      (some (Json.obj [("url", Json.str url), ("status", Json.int status),
        ("body", Json.str (String.mk (body.data.take 512)))])))
  | .transportError message =>
    some (AppError.upstream ("network error contacting " ++ url ++ ": " ++ message)
      (some (Json.obj [("url", Json.str url), ("status", Json.null),
        ("error", Json.str message)])))

/-- The immediate result of a 2xx attempt: the parsed JSON, or the
early-returned internal error when the body fails to parse. -/
def successResult : Except String Json → Except AppError Json
  | .ok json => .ok json
  | .error message => .error (AppError.internal ("failed to parse response json: " ++ message))

structure FetchResult where
  result : Except AppError Json
  attempts : Nat
  sleeps : List Nat


/-- The retry loop of ParliamentClient::execute_request (and identically
ParliamentClient::get_json): `for attempt in 0..RETRY_ATTEMPTS`, embedded
as recursion over the list of attempt indices.  On a 2xx response the
parse result is returned immediately; a failed attempt records its
structured error and, unless it was the final attempt, sleeps
`RETRY_DELAY_MS * (attempt + 1)` before the next one. -/
def fetchLoopGo (url : String) (responses : Nat → AttemptOutcome) :
    List Nat → Option AppError → List Nat → FetchResult
  | [], last_error, sleeps =>
    { result := .error (last_error.getD (AppError.internal "request failed")),
      attempts := RETRY_ATTEMPTS, sleeps := sleeps }
  | attempt :: rest, _, sleeps =>
    match responses attempt with
    | .success parse =>
      { result := successResult parse, attempts := attempt + 1, sleeps := sleeps }
    | other =>
      fetchLoopGo url responses rest (recordedError url other)
        (if attempt < RETRY_ATTEMPTS - 1 then sleeps ++ [RETRY_DELAY_MS * (attempt + 1)]
         else sleeps)

def fetchLoop (url : String) (responses : Nat → AttemptOutcome) : FetchResult :=
  fetchLoopGo url responses (List.range RETRY_ATTEMPTS) none []

structure ExecuteResult where
  result : Except AppError Json
  attempts : Nat
  sleeps : List Nat
  cache : CacheManager

/-- ParliamentClient::execute_request: ephemeral-cache check, retry loop,
cache insert on a successfully parsed response. -/
def execute_request (cache : CacheManager) (now : Nat) (url : String) (cache_key : String)
    (enable_cache : Bool) (ttl : Nat) (responses : Nat → AttemptOutcome) : ExecuteResult :=
  let checked := if enable_cache then CacheManager.get cache now cache_key else (none, cache)
  match checked with
  | (some cached, c1) => { result := .ok cached, attempts := 0, sleeps := [], cache := c1 }
  | (none, c1) =>
    let f := fetchLoop url responses
    let c2 :=
      match f.result with
      | .ok json => if enable_cache then c1.insert now cache_key json ttl else c1
      | .error _ => c1
    { result := f.result, attempts := f.attempts, sleeps := f.sleeps, cache := c2 }

/-- Index of the first 2xx attempt among the allowed ones. -/
def firstSuccessIdx (responses : Nat → AttemptOutcome) : Option Nat :=
  (List.range RETRY_ATTEMPTS).find? (fun i => (responses i).isSuccess)

/-- Full evaluation of the three-attempt retry loop. -/
theorem fetchLoop_eval (url : String) (responses : Nat → AttemptOutcome) :
    fetchLoop url responses =
      match responses 0 with
      | .success parse => { result := successResult parse, attempts := 1, sleeps := [] }
      | _ =>
        match responses 1 with
        | .success parse => { result := successResult parse, attempts := 2, sleeps := [500] }
        | _ =>
          match responses 2 with
          | .success parse =>
            { result := successResult parse, attempts := 3, sleeps := [500, 1000] }
          | final =>
            { result := .error ((recordedError url final).getD (AppError.internal "request failed")),
              attempts := 3, sleeps := [500, 1000] } := by
  show fetchLoopGo url responses [0, 1, 2] none [] = _
  cases h0 : responses 0 <;> cases h1 : responses 1 <;> cases h2 : responses 2 <;>
    simp [fetchLoopGo, h0, h1, h2, RETRY_ATTEMPTS, RETRY_DELAY_MS]

/-- C5: an outbound fetch (one not served from the ephemeral cache) makes
at most 3 attempts; the first 2xx attempt is parsed and returned
immediately with no further attempts; the sleeps between consecutive
attempts are 500ms times the 1-based index of the completed attempt, with
no sleep after the final attempt; after all 3 attempts fail, the
structured error recorded from the last attempt is returned (the generic
internal fallback would apply only had no attempt recorded an error, and
every failed attempt records one). -/
theorem C5_fetch_retry (cache : CacheManager) (now : Nat) (url cache_key : String)
    (enable_cache : Bool) (ttl : Nat) (responses : Nat → AttemptOutcome)
    (houtbound : enable_cache = false
      ∨ (CacheManager.get cache now cache_key).fst = none) :
    (execute_request cache now url cache_key enable_cache ttl responses).attempts
        = (fetchLoop url responses).attempts
    ∧ (execute_request cache now url cache_key enable_cache ttl responses).result
        = (fetchLoop url responses).result
    ∧ (execute_request cache now url cache_key enable_cache ttl responses).sleeps
        = (fetchLoop url responses).sleeps
    ∧ (fetchLoop url responses).attempts ≤ RETRY_ATTEMPTS
    ∧ (∀ i parse, firstSuccessIdx responses = some i → responses i = .success parse →
        (fetchLoop url responses).attempts = i + 1
        ∧ (fetchLoop url responses).sleeps
            = (List.range i).map (fun a => RETRY_DELAY_MS * (a + 1))
        ∧ (fetchLoop url responses).result = successResult parse)
    ∧ (firstSuccessIdx responses = none →
        (fetchLoop url responses).attempts = RETRY_ATTEMPTS
        ∧ (fetchLoop url responses).sleeps = [500, 1000]
        ∧ ∀ e, recordedError url (responses (RETRY_ATTEMPTS - 1)) = some e →
            (fetchLoop url responses).result = .error e) := by
  have hexec :
      (execute_request cache now url cache_key enable_cache ttl responses).attempts
          = (fetchLoop url responses).attempts
      ∧ (execute_request cache now url cache_key enable_cache ttl responses).result
          = (fetchLoop url responses).result
      ∧ (execute_request cache now url cache_key enable_cache ttl responses).sleeps
          = (fetchLoop url responses).sleeps := by
    cases enable_cache with
    | false => exact ⟨rfl, rfl, rfl⟩
    | true =>
      have hmiss : (CacheManager.get cache now cache_key).fst = none := by
        rcases houtbound with h | h
        · exact absurd h (by simp)
        · exact h
      rcases hres : CacheManager.get cache now cache_key with ⟨v, c1⟩
      rw [hres] at hmiss
      simp only at hmiss
      subst hmiss
      simp [execute_request, hres]
  refine ⟨hexec.1, hexec.2.1, hexec.2.2, ?_, ?_, ?_⟩
  · cases h0 : responses 0 <;> cases h1 : responses 1 <;> cases h2 : responses 2 <;>
      simp [fetchLoop_eval, h0, h1, h2, RETRY_ATTEMPTS]
  · intro i parse hfind hresp
    have hrange : List.range RETRY_ATTEMPTS = [0, 1, 2] := rfl
    simp only [firstSuccessIdx, hrange] at hfind
    cases h0 : responses 0 <;> cases h1 : responses 1 <;> cases h2 : responses 2 <;>
      simp only [h0, h1, h2, List.find?, AttemptOutcome.isSuccess, Option.some.injEq] at hfind <;>
      (try subst hfind) <;>
      simp_all [fetchLoop_eval, RETRY_DELAY_MS, List.range_succ]
  · intro hnone
    have hrange : List.range RETRY_ATTEMPTS = [0, 1, 2] := rfl
    simp only [firstSuccessIdx, hrange] at hnone
    cases h0 : responses 0 <;> cases h1 : responses 1 <;> cases h2 : responses 2 <;>
      simp only [h0, h1, h2, List.find?, AttemptOutcome.isSuccess] at hnone <;>
      refine ⟨?_, ?_, ?_⟩ <;> (try intro e he) <;>
      simp_all [fetchLoop_eval, recordedError, RETRY_ATTEMPTS, RETRY_DELAY_MS]

theorem C5_fetch_retry_witness :
    (fetchLoop "https://example.test"
        (fun i => if i = 1 then .success (.ok (Json.int 42))
          else .httpError 500 "oops")).attempts = 2
    ∧ (fetchLoop "https://example.test"
        (fun i => if i = 1 then .success (.ok (Json.int 42))
          else .httpError 500 "oops")).sleeps = [500]
    ∧ (fetchLoop "https://example.test"
        (fun i => if i = 1 then .success (.ok (Json.int 42))
          else .httpError 500 "oops")).result = .ok (Json.int 42) := by
  have h := (C5_fetch_retry (CacheManager.mkNew true 16) 0 "https://example.test" "k" true 60
      (fun i => if i = 1 then .success (.ok (Json.int 42)) else .httpError 500 "oops")
      (Or.inr rfl)).2.2.2.2.1 1 (.ok (Json.int 42)) rfl rfl
  exact ⟨h.1, h.2.1, h.2.2⟩

/-! ## Protocol framing and tool-error conversion (src/features/mcp/dto.rs, service.rs)

`serde_json::to_value` / `to_string_pretty` cannot fail on the structures
built here (strings, bools and already-valid JSON), so the unreachable
serialisation-error branches of build_tool_success and tool_execution_error
are not modelled; `Json.render` abstracts serde's text rendering (no claim
inspects that text). -/

def JSON_RPC_VERSION : String := "2.0"

mutual
def Json.render : Json → String
  | .null => "null"
  | .bool true => "true"
  | .bool false => "false"
  | .int n => toString n
  | .float text => text
  | .str s => "\"" ++ s ++ "\""
  | .arr items => "[" ++ Json.renderList items ++ "]"
  | .obj fields => "\x7b" ++ Json.renderFields fields ++ "\x7d"

def Json.renderList : List Json → String
  | [] => ""
  | [item] => item.render
  | item :: rest => item.render ++ "," ++ Json.renderList rest

def Json.renderFields : List (String × Json) → String
  | [] => ""
  | [(key, value)] => "\"" ++ key ++ "\":" ++ value.render
  | (key, value) :: rest => "\"" ++ key ++ "\":" ++ value.render ++ "," ++ Json.renderFields rest
end

structure ToolContent where
  kind : String
  text : String

structure ToolCallResult where
  content : List ToolContent
  structured_content : Option Json
  is_error : Option Bool

/-- Serde serialisation of ToolContent (`type` rename). -/
def ToolContent.toJson (c : ToolContent) : Json :=
  Json.obj [("type", Json.str c.kind), ("text", Json.str c.text)]

/-- Serde serialisation of ToolCallResult, honouring the
skip_serializing_if attributes on every field. -/
def ToolCallResult.toJson (r : ToolCallResult) : Json :=
  Json.obj
    ((if r.content.isEmpty then [] else [("content", Json.arr (r.content.map ToolContent.toJson))])
      ++ (match r.structured_content with
          | some value => [("structuredContent", value)]
          | none => [])
      ++ (match r.is_error with
          | some flag => [("isError", Json.bool flag)]
          | none => []))

structure JsonRpcError where
  code : Int
  message : String
  data : Option Json

structure JsonRpcErrorResponse where
  jsonrpc : String
  id : Json
  error : JsonRpcError

structure JsonRpcSuccess where
  jsonrpc : String
  id : Json
  result : Json

/-- McpService::invalid_request_response. -/
def invalid_request_response (id : Option Json) (code : Int) (message : String) :
    JsonRpcErrorResponse :=
  { jsonrpc := JSON_RPC_VERSION, id := id.getD Json.null,
    error := { code := code, message := message, data := none } }

/-- McpService::internal_error_response. -/
def internal_error_response (id : Option Json) (message : String) : JsonRpcErrorResponse :=
  { jsonrpc := JSON_RPC_VERSION, id := id.getD Json.null,
    error := { code := -32000, message := message, data := none } }

/-- McpService::describe_tool_error. -/
def describe_tool_error (tool_name : String) (error : AppError) : String :=
  match error with
  | .upstream _ data =>
    match (data.bind (fun value => value.get "status")).bind Json.as_u64 with
    | some status => "Upstream service responded with HTTP " ++ toString status
    | none => "Upstream service request for " ++ tool_name ++ " failed"
  | .configuration _ => "Server configuration prevented running " ++ tool_name
  | .internal _ => "Internal error while executing " ++ tool_name
  | .badRequest message => message

/-- McpService::build_tool_success. -/
def build_tool_success (id : Json) (payload : Json) : JsonRpcSuccess :=
  { jsonrpc := JSON_RPC_VERSION, id := id,
    result := ToolCallResult.toJson
      { content := [{ kind := "text", text := payload.render }],
        structured_content := some payload, is_error := none } }

/-- McpService::tool_execution_error. -/
def tool_execution_error (id : Json) (tool_name : String) (error : AppError) : JsonRpcSuccess :=
  { jsonrpc := JSON_RPC_VERSION, id := id,
    result := ToolCallResult.toJson
      { content := [{ kind := "text", text := describe_tool_error tool_name error }],
        structured_content := none, is_error := some true } }

/-- The final dispatch of a tool handler's outcome inside
McpService::handle_call_tool (the `match call_result` at the end). -/
def dispatch_call_result (id : Json) (tool_name : String)
    (call_result : Except AppError Json) : Except JsonRpcErrorResponse JsonRpcSuccess :=
  match call_result with
  | .ok payload => .ok (build_tool_success id payload)
  | .error (.badRequest message) => .error (invalid_request_response (some id) (-32602) message)
  | .error error => .ok (tool_execution_error id tool_name error)

/-- C3: a tool handler failure that is not BadRequest is converted into a
successful protocol response whose payload sets isError and carries the
sanitized message: the HTTP status only (never the captured body) for an
Upstream error with a status, and a generic category label naming the tool
for Configuration and Internal errors. -/
theorem C3_tool_error_soft_failure (id : Json) (tool : String) (error : AppError)
    (hnotbad : ∀ m, error ≠ AppError.badRequest m) :
    dispatch_call_result id tool (.error error) = .ok (tool_execution_error id tool error)
    ∧ (tool_execution_error id tool error).result.get "isError" = some (Json.bool true)
    ∧ (tool_execution_error id tool error).result.get "content"
        = some (Json.arr [Json.obj [("type", Json.str "text"),
            ("text", Json.str (describe_tool_error tool error))]])
    ∧ (∀ message data status, error = .upstream message data →
        (data.bind (fun value => value.get "status")).bind Json.as_u64 = some status →
        describe_tool_error tool error = "Upstream service responded with HTTP " ++ toString status)
    ∧ (∀ message data, error = .upstream message data →
        (data.bind (fun value => value.get "status")).bind Json.as_u64 = none →
        describe_tool_error tool error = "Upstream service request for " ++ tool ++ " failed")
    ∧ (∀ message, error = .configuration message →
        describe_tool_error tool error = "Server configuration prevented running " ++ tool)
    ∧ (∀ message, error = .internal message →
        describe_tool_error tool error = "Internal error while executing " ++ tool) := by
  refine ⟨?_, rfl, rfl, ?_, ?_, ?_, ?_⟩
  · cases error with
    | badRequest m => exact absurd rfl (hnotbad m)
    | configuration m => rfl
    | upstream m d => rfl
    | internal m => rfl
  · intro message data status herr hstat
    subst herr
    simp [describe_tool_error, hstat]
  · intro message data herr hstat
    subst herr
    simp [describe_tool_error, hstat]
  · intro message herr
    subst herr
    rfl
  · intro message herr
    subst herr
    rfl

theorem C3_tool_error_soft_failure_witness :
    (tool_execution_error (Json.str "7") "parliament.fetch_bills"
        (AppError.upstream "request failed"
          (some (Json.obj [("url", Json.str "u"), ("status", Json.int 502),
            ("body", Json.str "raw upstream body")])))).result.get "isError"
      = some (Json.bool true)
    ∧ describe_tool_error "parliament.fetch_bills"
        (AppError.upstream "request failed"
          (some (Json.obj [("url", Json.str "u"), ("status", Json.int 502),
            ("body", Json.str "raw upstream body")])))
      = "Upstream service responded with HTTP 502" := by
  have h := C3_tool_error_soft_failure (Json.str "7") "parliament.fetch_bills"
    (AppError.upstream "request failed"
      (some (Json.obj [("url", Json.str "u"), ("status", Json.int 502),
        ("body", Json.str "raw upstream body")])))
    (fun m hm => by cases hm)
  refine ⟨h.2.1, ?_⟩
  have h4 := h.2.2.2.1 "request failed"
    (some (Json.obj [("url", Json.str "u"), ("status", Json.int 502),
      ("body", Json.str "raw upstream body")])) 502 rfl rfl
  exact h4

/-! ## Research DTOs and parsing helpers (src/features/research/dto.rs, helpers.rs) -/

structure BillSummaryDto where
  title : String
  stage : Option String
  last_update : Option String
  link : Option String
deriving DecidableEq

structure DebateSummaryDto where
  title : String
  house : Option String
  date : Option String
  link : Option String
  highlight : Option String
deriving DecidableEq

structure LegislationSummaryDto where
  title : String
  year : Option String
  legislation_type : Option String
  uri : Option String
deriving DecidableEq

structure VoteSummaryDto where
  division_number : Option String
  title : String
  date : Option String
  ayes : Option Int
  noes : Option Int
  result : Option String
  link : Option String
deriving DecidableEq

structure SpeechSummaryDto where
  member_name : Option String
  date : Option String
  excerpt : Option String
  source : Option String
deriving DecidableEq

structure PartyBreakdownDto where
  name : String
  seats : Option Int
deriving DecidableEq

structure StateOfPartiesDto where
  total_seats : Option Int
  last_updated : Option String
  parties : List PartyBreakdownDto
deriving DecidableEq

structure ResearchResponseDto where
  summary : String
  bills : List BillSummaryDto
  debates : List DebateSummaryDto
  legislation : List LegislationSummaryDto
  votes : List VoteSummaryDto
  mp_speeches : List SpeechSummaryDto
  state_of_parties : Option StateOfPartiesDto
  advisories : List String
  cached : Bool
deriving DecidableEq, Inhabited

/-- find_value from helpers.rs: first object field whose name matches the
key ASCII-case-insensitively. -/
def find_value (value : Json) (key : String) : Option Json :=
  match value with
  | .obj fields => (fields.find? (fun p => eqIgnoreAsciiCase p.fst key)).map (fun p => p.snd)
  | _ => none

theorem sizeOf_find_value {value : Json} {key : String} {entry : Json}
    (h : find_value value key = some entry) : sizeOf entry < sizeOf value := by
  cases value with
  | obj fields =>
    simp only [find_value, Option.map_eq_some'] at h
    obtain ⟨p, hfind, hsnd⟩ := h
    have hmem : p ∈ fields := List.mem_of_find?_eq_some hfind
    have h1 : sizeOf p < sizeOf fields := List.sizeOf_lt_of_mem hmem
    obtain ⟨k, v⟩ := p
    simp only at hsnd
    subst hsnd
    simp only [Prod.mk.sizeOf_spec] at h1
    simp only [Json.obj.sizeOf_spec]
    omega
  | null => simp [find_value] at h
  | bool b => simp [find_value] at h
  | int n => simp [find_value] at h
  | float t => simp [find_value] at h
  | str s => simp [find_value] at h
  | arr items => simp [find_value] at h

/-- first_string from helpers.rs: for each key in order, a non-empty
trimmed string value is returned; an object value is searched recursively
under the text/value/description keys; otherwise the next key is tried. -/
def first_string (value : Json) (keys : List String) : Option String :=
  match keys with
  | [] => none
  | key :: rest =>
    match h : find_value value key with
    | some entry =>
      match entry.as_str with
      | some text =>
        if strIsEmpty (rustTrim text) then first_string value rest
        else some (rustTrim text)
      | none =>
        if entry.is_object then
          match first_string entry ["text", "value", "description"] with
          | some text => some text
          | none => first_string value rest
        else first_string value rest
    | none => first_string value rest
termination_by (sizeOf value, keys.length)
decreasing_by
  all_goals simp_wf
  all_goals first
    | exact Prod.Lex.left _ _ (sizeOf_find_value h)
    | exact Prod.Lex.right _ (by omega)

/-- Digits-only decimal parse. -/
def parseDigits (chars : List Char) : Option Nat :=
  if chars.isEmpty then none
  else if chars.all Char.isDigit then
    some (chars.foldl (fun acc c => acc * 10 + (c.toNat - 48)) 0)
  else none

/-- str::parse::<i64> on an already-trimmed string: optional sign, at
least one digit, i64 range check. -/
def parseI64 (s : String) : Option Int :=
  match s.data with
  | '+' :: rest => (parseDigits rest).bind (fun n => if n < 2 ^ 63 then some (n : Int) else none)
  | '-' :: rest => (parseDigits rest).bind (fun n => if n ≤ 2 ^ 63 then some (-(n : Int)) else none)
  | chars => (parseDigits chars).bind (fun n => if n < 2 ^ 63 then some (n : Int) else none)

/-- first_integer from helpers.rs. -/
def first_integer (value : Json) (keys : List String) : Option Int :=
  match keys with
  | [] => none
  | key :: rest =>
    match find_value value key with
    | some entry =>
      match entry.as_i64 with
      | some number => some number
      | none =>
        match entry.as_str with
        | some text =>
          match parseI64 (rustTrim text) with
          | some parsed => some parsed
          | none => first_integer value rest
        | none => first_integer value rest
    | none => first_integer value rest

/-- locate_array from helpers.rs: the first key giving a non-empty array. -/
def locate_array (value : Json) (keys : List String) : Option (List Json) :=
  match keys with
  | [] => none
  | key :: rest =>
    match (find_value value key).bind Json.as_array with
    | some array => if array.isEmpty then locate_array value rest else some array
    | none => locate_array value rest

/-- Byte length of a string (str::len). -/
def utf8Len (s : String) : Nat :=
  s.data.foldl (fun n c => n + c.utf8Size) 0

/-- truncate_summary from helpers.rs: byte-length guard, char-count cut. -/
def truncate_summary (value : String) : String :=
  if utf8Len value ≤ 220 then value
  else String.mk (value.data.take 220) ++ "…"

/-- One parsed bill item. -/
def mkBillSummary (item : Json) : BillSummaryDto :=
  { title := (first_string item ["title", "shortTitle", "name"]).getD
      ((first_string item ["billName", "officialTitle"]).getD "Unknown bill"),
    stage :=
      match (find_value item "billStage").bind
          (fun stage => first_string stage ["description", "name"]) with
      | some stage => some stage
      | none => first_string item ["stage", "currentStage"],
    last_update := first_string item ["lastUpdate", "lastUpdated", "updated"],
    link :=
      match (find_value item "billId").bind Json.as_i64 with
      | some billId => some ("https://bills.parliament.uk/bills/" ++ toString billId)
      | none => first_string item ["link", "uri", "url"] }

/-- The push-then-break-at-limit loop shared by the parse functions:
each item is pushed and the loop stops as soon as the result count
reaches the limit (so a limit of 0 would still yield one item, exactly
as the Rust loop does). -/
def parseLoop {α : Type} (mk : Json → α) (limit : Nat) : List Json → Nat → List α
  | [], _ => []
  | item :: rest, count =>
    let parsed := mk item
    if limit ≤ count + 1 then [parsed]
    else parsed :: parseLoop mk limit rest (count + 1)

/-- parse_bill_results from helpers.rs. -/
def parse_bill_results (value : Json) (limit : Nat) : List BillSummaryDto :=
  match locate_array value ["items", "results", "bills"] with
  | some items => parseLoop mkBillSummary limit items 0
  | none => []

def mkLegislationSummary (item : Json) : LegislationSummaryDto :=
  { title := (first_string item ["title", "name", "titleXml"]).getD "Legislation",
    year := first_string item ["year", "Year"],
    legislation_type := first_string item ["type", "Type", "legislationType"],
    uri := first_string item ["uri", "URI", "_about"] }

/-- parse_legislation_results from helpers.rs. -/
def parse_legislation_results (value : Json) (limit : Nat) : List LegislationSummaryDto :=
  match locate_array value ["legislation", "results", "items"] with
  | some items => parseLoop mkLegislationSummary limit items 0
  | none => []

def mkVoteSummary (item : Json) : VoteSummaryDto :=
  { division_number := first_string item ["divisionNumber", "DivisionNumber"],
    title := (first_string item ["title", "Title", "motion"]).getD "Division",
    date := first_string item ["date", "Date"],
    ayes := first_integer item ["ayes", "Ayes", "ayesCount"],
    noes := first_integer item ["noes", "Noes", "noesCount"],
    result := first_string item ["result", "Result"],
    link := first_string item ["uri", "_about", "link"] }

/-- parse_vote_results from helpers.rs. -/
def parse_vote_results (value : Json) (limit : Nat) : List VoteSummaryDto :=
  match locate_array value ["items", "results", "votes"] with
  | some items => parseLoop mkVoteSummary limit items 0
  | none => []

def mkDebateSummary (item : Json) : DebateSummaryDto :=
  { title := (first_string item ["title", "Title", "subject"]).getD "Debate",
    house := first_string item ["house", "House"],
    date := first_string item ["date", "Date"],
    link := first_string item ["uri", "_about", "link"],
    highlight :=
      (match first_string item ["summary", "Synopsis", "description"] with
       | some text => some text
       | none => first_string item ["excerpt"]).map truncate_summary }

/-- parse_debate_results from helpers.rs. -/
def parse_debate_results (value : Json) (limit : Nat) : List DebateSummaryDto :=
  match locate_array value ["items", "results", "debates"] with
  | some items => parseLoop mkDebateSummary limit items 0
  | none => []

def mkPartyBreakdown (item : Json) : PartyBreakdownDto :=
  { name := (first_string item ["party", "name", "Party"]).getD "Unknown",
    seats := first_integer item ["seats", "Seats", "memberCount"] }

/-- parse_state_of_parties from helpers.rs (no limit on the party list). -/
def parse_state_of_parties (value : Json) : Option StateOfPartiesDto :=
  let parties :=
    match locate_array value ["items", "results", "parties"] with
    | some items => items.map mkPartyBreakdown
    | none => []
  if parties.isEmpty then none
  else
    some { total_seats := first_integer value ["totalSeats", "TotalSeats", "total"],
           last_updated := first_string value ["lastUpdated", "LastUpdated", "date"],
           parties := parties }

/-- Rust Debug formatting of an Option<i64>. -/
def fmtDebugOptInt : Option Int → String
  | none => "None"
  | some n => "Some(" ++ toString n ++ ")"

/-- compose_summary from helpers.rs. -/
def compose_summary (topic : String) (response : ResearchResponseDto)
    (advisories : List String) : String :=
  let segments :=
    (match response.bills.head? with
     | some bill =>
       ["Priority bill: " ++ bill.title
          ++ (match bill.stage with
              | some stage => " (current stage: " ++ stage ++ ")"
              | none => "")]
     | none => [])
    ++ (match response.legislation.head? with
        | some legislation =>
          ["Relevant legislation: " ++ legislation.title
            ++ (match legislation.year with
                | some year => " (" ++ year ++ ")"
                | none => "")]
        | none => [])
    ++ (match response.votes.head? with
        | some vote =>
          ["Recent division: " ++ vote.title
            ++ (match vote.result with
                | some result => " (" ++ result ++ ")"
                | none => "")]
        | none => [])
    ++ (match response.debates.head? with
        | some debate =>
          ["Debate highlight: " ++ debate.title
            ++ (match debate.date with
                | some date => " (" ++ date ++ ")"
                | none => "")]
        | none => [])
    ++ (match response.state_of_parties with
        | some state =>
          match state.parties.head? with
          | some top_party =>
            ["House balance: " ++ top_party.name ++ " holding "
              ++ fmtDebugOptInt top_party.seats ++ " seats"]
          | none => []
        | none => [])
  let segments :=
    if segments.isEmpty then
      ["No authoritative parliamentary sources were retrieved; consider broadening the topic keywords."]
    else segments
  let segments := segments ++ (advisories.take 3).map (fun note => "Note: " ++ note)
  let header := "Key research findings on \"" ++ rustTrim topic ++ "\":"
  segments.foldl (fun summary segment => summary ++ "\n- " ++ segment) header

/-! ## Research keyword expansion and collectors (src/features/research/service.rs) -/

/-- push_unique from helpers.rs: trim+lowercase, skip candidates shorter
than 3 bytes, skip duplicates, else push at the back. -/
def push_unique (terms : List String) (value : String) : List String :=
  let candidate := rustToLowercase (rustTrim value)
  if utf8Len candidate < 3 then terms
  else if terms.any (fun existing => existing == candidate) then terms
  else terms ++ [candidate]

/-- expand_search_terms from helpers.rs: the full keyword plus its first
and last whitespace-delimited tokens, deduplicated. -/
def expand_search_terms (keyword : String) : List String :=
  let trimmed := rustTrim keyword
  if strIsEmpty trimmed then []
  else
    let terms := push_unique [] trimmed
    let parts := splitWhitespace trimmed
    let terms :=
      match parts.head? with
      | some first => push_unique terms first
      | none => terms
    let terms :=
      match parts.getLast? with
      | some last => push_unique terms last
      | none => terms
    terms

/-- ensure_keywords from helpers.rs: normalise the explicit keywords and
prepend the lower-cased topic when it is absent. -/
def ensure_keywords (topic : String) (explicit : List String) : List String :=
  let keywords := normalizeKeywordList explicit
  let topic_value := rustToLowercase (rustTrim topic)
  if !strIsEmpty topic_value && !keywords.any (fun value => value == topic_value) then
    topic_value :: keywords
  else keywords

/-! Upstream argument structures (src/features/parliament/dto.rs), limited
to the fields the research service populates. -/

structure FetchBillsArgs where
  search_term : Option String
  house : Option String
  session : Option String
  parliament_number : Option Nat
  enable_cache : Option Bool
  apply_relevance : Option Bool
  relevance_threshold : Option Rat
deriving DecidableEq

structure FetchCoreDatasetArgs where
  dataset : String
  search_term : Option String
  page : Option Nat
  per_page : Option Nat
  enable_cache : Option Bool
  fuzzy_match : Option Bool
  apply_relevance : Option Bool
  relevance_threshold : Option Rat
deriving DecidableEq

structure FetchLegislationArgs where
  title : Option String
  year : Option Nat
  legislation_type : Option String
  enable_cache : Option Bool
  apply_relevance : Option Bool
  relevance_threshold : Option Rat
deriving DecidableEq

/-- The fields of AppConfig the research service reads. -/
structure AppConfig where
  relevance_threshold : Rat

/-- One invocation of a ParliamentDataSource method. -/
inductive FetchEvent where
  | bills (args : FetchBillsArgs) : FetchEvent
  | core (args : FetchCoreDatasetArgs) : FetchEvent
  | legislation (args : FetchLegislationArgs) : FetchEvent
deriving DecidableEq

def FetchEvent.isBills : FetchEvent → Bool
  | .bills _ => true
  | _ => false

/-- The ParliamentDataSource trait, as a deterministic oracle (two calls
with the same arguments observe the same outcome, as in the test double). -/
structure ParliamentDataSource where
  fetch_bills : FetchBillsArgs → Except AppError Json
  fetch_core_dataset : FetchCoreDatasetArgs → Except AppError Json
  fetch_legislation : FetchLegislationArgs → Except AppError Json

structure CollectionOutcome (α : Type) where
  data : α
  advisories : List String

/-- The inner relevance-variant loop of collect_bills: strict relevance
first, then the lenient broadened variant. -/
def billsVariants (cfg : AppConfig) : List (Option Bool × Option Rat × Bool) :=
  [(some true, some cfg.relevance_threshold, false), (some false, some 0, true)]

def bills_try_variants (ds : ParliamentDataSource) (limit : Nat) (keyword term : String) :
    List (Option Bool × Option Rat × Bool) → List String → List FetchEvent →
    Option (List BillSummaryDto) × List String × List FetchEvent
  | [], advisories, events => (none, advisories, events)
  | (apply_relevance, threshold, broadened) :: rest, advisories, events =>
    let args : FetchBillsArgs :=
      { search_term := some term, house := none, session := none, parliament_number := none,
        enable_cache := some true, apply_relevance := apply_relevance,
        relevance_threshold := threshold }
    let events := events ++ [FetchEvent.bills args]
    match ds.fetch_bills args with
    | .ok raw =>
      let parsed := parse_bill_results raw limit
      if parsed.isEmpty then
        bills_try_variants ds limit keyword term rest advisories events
      else
        let advisories :=
          if broadened || term != keyword then
            advisories ++ ["Bills search broadened to \"" ++ term
              ++ "\" after the initial query returned no results."]
          else advisories
        (some parsed, advisories, events)
    | .error error =>
      bills_try_variants ds limit keyword term rest
        (advisories ++ ["Bills lookup for \"" ++ term ++ "\" failed: " ++ error.display])
        events

def bills_try_terms (ds : ParliamentDataSource) (cfg : AppConfig) (limit : Nat)
    (keyword : String) :
    List String → List String → List FetchEvent →
    Option (List BillSummaryDto) × List String × List FetchEvent
  | [], advisories, events => (none, advisories, events)
  | term :: rest, advisories, events =>
    match bills_try_variants ds limit keyword term (billsVariants cfg) advisories events with
    | (some parsed, advisories1, events1) => (some parsed, advisories1, events1)
    | (none, advisories1, events1) => bills_try_terms ds cfg limit keyword rest advisories1 events1

def bills_keywords_loop (ds : ParliamentDataSource) (cfg : AppConfig) (limit : Nat) :
    List String → List String → List FetchEvent →
    Option (List BillSummaryDto) × List String × List FetchEvent
  | [], advisories, events => (none, advisories, events)
  | keyword :: rest, advisories, events =>
    if strIsEmpty keyword then bills_keywords_loop ds cfg limit rest advisories events
    else
      match bills_try_terms ds cfg limit keyword (expand_search_terms keyword)
          advisories events with
      | (some parsed, advisories1, events1) => (some parsed, advisories1, events1)
      | (none, advisories1, events1) =>
        bills_keywords_loop ds cfg limit rest
          (advisories1 ++ ["No bills matched the keyword \"" ++ keyword
            ++ "\"; try alternative or broader keywords."])
          events1

/-- ResearchService::collect_bills. -/
def collect_bills (ds : ParliamentDataSource) (cfg : AppConfig) (keywords : List String)
    (limit : Nat) : CollectionOutcome (List BillSummaryDto) × List FetchEvent :=
  match bills_keywords_loop ds cfg limit keywords [] [] with
  | (some parsed, advisories, events) => ({ data := parsed, advisories := advisories }, events)
  | (none, advisories, events) =>
    let advisories :=
      if advisories.isEmpty then ["Bills service returned no data for this topic."]
      else advisories
    ({ data := [], advisories := advisories }, events)

/-- Arguments built by collect_votes for one search term. -/
def votesArgs (cfg : AppConfig) (limit : Nat) (term : String) : FetchCoreDatasetArgs :=
  { dataset := "commonsdivisions", search_term := some term, page := some 0,
    per_page := some limit, enable_cache := some true, fuzzy_match := some true,
    apply_relevance := some true, relevance_threshold := some cfg.relevance_threshold }

def votes_try_terms (ds : ParliamentDataSource) (cfg : AppConfig) (limit : Nat)
    (keyword : String) :
    List String → List String → List FetchEvent →
    Option (List VoteSummaryDto) × List String × List FetchEvent
  | [], advisories, events => (none, advisories, events)
  | term :: rest, advisories, events =>
    let args := votesArgs cfg limit term
    let events := events ++ [FetchEvent.core args]
    match ds.fetch_core_dataset args with
    | .ok raw =>
      let parsed := parse_vote_results raw limit
      if parsed.isEmpty then votes_try_terms ds cfg limit keyword rest advisories events
      else
        let advisories :=
          if term != keyword then
            advisories ++ ["Division search broadened to \"" ++ term
              ++ "\" after the initial keyword returned no results."]
          else advisories
        (some parsed, advisories, events)
    | .error error =>
      votes_try_terms ds cfg limit keyword rest
        (advisories ++ ["Division lookup for \"" ++ term ++ "\" failed: " ++ error.display])
        events

def votes_keywords_loop (ds : ParliamentDataSource) (cfg : AppConfig) (limit : Nat) :
    List String → List String → List FetchEvent →
    Option (List VoteSummaryDto) × List String × List FetchEvent
  | [], advisories, events => (none, advisories, events)
  | keyword :: rest, advisories, events =>
    if strIsEmpty keyword then votes_keywords_loop ds cfg limit rest advisories events
    else
      match votes_try_terms ds cfg limit keyword (expand_search_terms keyword)
          advisories events with
      | (some parsed, advisories1, events1) => (some parsed, advisories1, events1)
      | (none, advisories1, events1) =>
        votes_keywords_loop ds cfg limit rest
          (advisories1 ++ ["No Commons divisions matched the keyword \"" ++ keyword
            ++ "\"; consider broader vote terms."])
          events1

/-- ResearchService::collect_votes. -/
def collect_votes (ds : ParliamentDataSource) (cfg : AppConfig) (keywords : List String)
    (limit : Nat) : CollectionOutcome (List VoteSummaryDto) × List FetchEvent :=
  match votes_keywords_loop ds cfg limit keywords [] [] with
  | (some parsed, advisories, events) => ({ data := parsed, advisories := advisories }, events)
  | (none, advisories, events) =>
    let advisories :=
      if advisories.isEmpty then ["No Commons divisions were retrieved for this topic."]
      else advisories
    ({ data := [], advisories := advisories }, events)

def legislation_try_variants (ds : ParliamentDataSource) (limit : Nat) (keyword term : String) :
    List (Option Bool × Option Rat × Bool) → List String → List FetchEvent →
    Option (List LegislationSummaryDto) × List String × List FetchEvent
  | [], advisories, events => (none, advisories, events)
  | (apply_relevance, threshold, broadened) :: rest, advisories, events =>
    let args : FetchLegislationArgs :=
      { title := some term, year := none, legislation_type := none,
        enable_cache := some true, apply_relevance := apply_relevance,
        relevance_threshold := threshold }
    let events := events ++ [FetchEvent.legislation args]
    match ds.fetch_legislation args with
    | .ok raw =>
      let parsed := parse_legislation_results raw limit
      if parsed.isEmpty then
        legislation_try_variants ds limit keyword term rest advisories events
      else
        let advisories :=
          if broadened || term != keyword then
            advisories ++ ["Legislation search broadened to \"" ++ term
              ++ "\" after the initial keyword returned no results."]
          else advisories
        (some parsed, advisories, events)
    | .error error =>
      legislation_try_variants ds limit keyword term rest
        (advisories ++ ["Legislation lookup for \"" ++ term ++ "\" failed: " ++ error.display])
        events

def legislation_try_terms (ds : ParliamentDataSource) (cfg : AppConfig) (limit : Nat)
    (keyword : String) :
    List String → List String → List FetchEvent →
    Option (List LegislationSummaryDto) × List String × List FetchEvent
  | [], advisories, events => (none, advisories, events)
  | term :: rest, advisories, events =>
    match legislation_try_variants ds limit keyword term (billsVariants cfg)
        advisories events with
    | (some parsed, advisories1, events1) => (some parsed, advisories1, events1)
    | (none, advisories1, events1) =>
      legislation_try_terms ds cfg limit keyword rest advisories1 events1

def legislation_keywords_loop (ds : ParliamentDataSource) (cfg : AppConfig) (limit : Nat) :
    List String → List String → List FetchEvent →
    Option (List LegislationSummaryDto) × List String × List FetchEvent
  | [], advisories, events => (none, advisories, events)
  | keyword :: rest, advisories, events =>
    if strIsEmpty keyword then legislation_keywords_loop ds cfg limit rest advisories events
    else
      match legislation_try_terms ds cfg limit keyword (expand_search_terms keyword)
          advisories events with
      | (some parsed, advisories1, events1) => (some parsed, advisories1, events1)
      | (none, advisories1, events1) =>
        legislation_keywords_loop ds cfg limit rest
          (advisories1 ++ ["No legislation matched the keyword \"" ++ keyword
            ++ "\"; try alternate titles or verify the act year."])
          events1

/-- ResearchService::collect_legislation. -/
def collect_legislation (ds : ParliamentDataSource) (cfg : AppConfig) (keywords : List String)
    (limit : Nat) : CollectionOutcome (List LegislationSummaryDto) × List FetchEvent :=
  match legislation_keywords_loop ds cfg limit keywords [] [] with
  | (some parsed, advisories, events) => ({ data := parsed, advisories := advisories }, events)
  | (none, advisories, events) =>
    let advisories :=
      if advisories.isEmpty then ["Legislation search produced no matches for this topic."]
      else advisories
    ({ data := [], advisories := advisories }, events)

/-- Arguments built by collect_debates for one search term. -/
def debatesArgs (cfg : AppConfig) (limit : Nat) (term : String) : FetchCoreDatasetArgs :=
  { dataset := "commonsdebates", search_term := some term, page := some 0,
    per_page := some limit, enable_cache := some true, fuzzy_match := some true,
    apply_relevance := some true, relevance_threshold := some cfg.relevance_threshold }

def debates_try_terms (ds : ParliamentDataSource) (cfg : AppConfig) (limit : Nat)
    (keyword : String) :
    List String → List String → List FetchEvent →
    Option (List DebateSummaryDto) × List String × List FetchEvent
  | [], advisories, events => (none, advisories, events)
  | term :: rest, advisories, events =>
    let args := debatesArgs cfg limit term
    let events := events ++ [FetchEvent.core args]
    match ds.fetch_core_dataset args with
    | .ok raw =>
      let parsed := parse_debate_results raw limit
      if parsed.isEmpty then debates_try_terms ds cfg limit keyword rest advisories events
      else
        let advisories :=
          if term != keyword then
            advisories ++ ["Debate search broadened to \"" ++ term
              ++ "\" after the initial keyword returned no results."]
          else advisories
        (some parsed, advisories, events)
    | .error error =>
      debates_try_terms ds cfg limit keyword rest
        (advisories ++ ["Debate lookup for \"" ++ term ++ "\" failed: " ++ error.display])
        events

def debates_keywords_loop (ds : ParliamentDataSource) (cfg : AppConfig) (limit : Nat) :
    List String → List String → List FetchEvent →
    Option (List DebateSummaryDto) × List String × List FetchEvent
  | [], advisories, events => (none, advisories, events)
  | keyword :: rest, advisories, events =>
    if strIsEmpty keyword then debates_keywords_loop ds cfg limit rest advisories events
    else
      match debates_try_terms ds cfg limit keyword (expand_search_terms keyword)
          advisories events with
      | (some parsed, advisories1, events1) => (some parsed, advisories1, events1)
      | (none, advisories1, events1) =>
        debates_keywords_loop ds cfg limit rest
          (advisories1 ++ ["No Commons debates matched the keyword \"" ++ keyword
            ++ "\"; try broader debate topics or different dates."])
          events1

/-- ResearchService::collect_debates. -/
def collect_debates (ds : ParliamentDataSource) (cfg : AppConfig) (keywords : List String)
    (limit : Nat) : CollectionOutcome (List DebateSummaryDto) × List FetchEvent :=
  match debates_keywords_loop ds cfg limit keywords [] [] with
  | (some parsed, advisories, events) => ({ data := parsed, advisories := advisories }, events)
  | (none, advisories, events) =>
    let advisories :=
      if advisories.isEmpty then ["Debate search returned no results for this topic."]
      else advisories
    ({ data := [], advisories := advisories }, events)

/-- ResearchService::collect_state_of_parties. -/
def collect_state_of_parties (ds : ParliamentDataSource) (cfg : AppConfig) (include_flag : Bool) :
    CollectionOutcome (Option StateOfPartiesDto) × List FetchEvent :=
  if include_flag = false then ({ data := none, advisories := [] }, [])
  else
    let args : FetchCoreDatasetArgs :=
      { dataset := "stateofparties", search_term := none, page := none,
        per_page := some DEFAULT_RESULT_LIMIT, enable_cache := some true,
        fuzzy_match := some false, apply_relevance := some false,
        relevance_threshold := some cfg.relevance_threshold }
    match ds.fetch_core_dataset args with
    | .ok raw => ({ data := parse_state_of_parties raw, advisories := [] }, [FetchEvent.core args])
    | .error _ =>
      ({ data := none,
         advisories := ["State of parties data is temporarily unavailable; seat counts were omitted."] },
       [FetchEvent.core args])

/-! ## Durable research cache and run_research (src/features/research/service.rs)

The sled tree is embedded as an association list in which insert replaces
any previous binding of the key; the serde round-trip of the typed cache
entry is the identity in this typed embedding, and the sled/serde failure
branches of try_get_cached and store_cache (which only report storage
faults) cannot occur.  `now_timestamp()` is passed in explicitly as `now`
(one timestamp per call). -/

structure CachedResearchEntry where
  stored_at : Nat
  payload : ResearchResponseDto
deriving DecidableEq

abbrev ResearchCache := List (String × CachedResearchEntry)

def cacheLookup (tree : ResearchCache) (key : String) : Option CachedResearchEntry :=
  (tree.find? (fun p => p.fst == key)).map (fun p => p.snd)

def cacheInsert (tree : ResearchCache) (key : String) (entry : CachedResearchEntry) :
    ResearchCache :=
  (key, entry) :: tree.filter (fun p => !(p.fst == key))

/-- ResearchService::try_get_cached: the stored payload while
`now - stored_at <= ttl` (saturating subtraction, as in the source). -/
def try_get_cached (tree : ResearchCache) (ttl now : Nat) (key : String) :
    Option ResearchResponseDto :=
  match cacheLookup tree key with
  | some entry => if now - entry.stored_at ≤ ttl then some entry.payload else none
  | none => none

/-- ResearchService::store_cache: stores the response with `cached` forced
to false. -/
def store_cache (tree : ResearchCache) (now : Nat) (key : String)
    (response : ResearchResponseDto) : ResearchCache :=
  cacheInsert tree key { stored_at := now, payload := { response with cached := false } }

/-- The advisory merge step of run_research: when the merged list is
non-empty, keep first occurrences only and truncate to 4 when longer. -/
def retainFirstOccurrences : List String → List String → List String
  | [], _ => []
  | note :: rest, seen =>
    if seen.contains note then retainFirstOccurrences rest seen
    else note :: retainFirstOccurrences rest (note :: seen)

def dedupCapAdvisories (advisories : List String) : List String :=
  if advisories.isEmpty then advisories
  else
    let deduped := retainFirstOccurrences advisories []
    if 4 < deduped.length then deduped.take 4 else deduped

structure ResearchRun where
  result : Except AppError ResearchResponseDto
  cache : ResearchCache
  events : List FetchEvent

/-- ResearchService::run_research.  The five collectors are joined
concurrently in the source; with the deterministic data-source oracle the
embedding runs them in the declaration order, and records their fetch
events in the merge order bills, votes, legislation, debates, parties. -/
def run_research (cfg : AppConfig) (ds : ParliamentDataSource) (cache_tree : ResearchCache)
    (cache_ttl : Nat) (now : Nat) (request : ResearchRequestDto) : ResearchRun :=
  let topic := rustTrim request.topic
  if strIsEmpty topic then
    { result := .error (AppError.badRequest "topic must not be empty"),
      cache := cache_tree, events := [] }
  else
    let cache_key := build_cache_key request
    match try_get_cached cache_tree cache_ttl now cache_key with
    | some cached =>
      { result := .ok { cached with cached := true }, cache := cache_tree, events := [] }
    | none =>
      let bill_keywords := ensure_keywords topic request.bill_keywords
      let debate_keywords := ensure_keywords topic request.debate_keywords
      let limit := coerce_limit request.limit
      let bills_run := collect_bills ds cfg bill_keywords limit
      let votes_run := collect_votes ds cfg bill_keywords limit
      let legislation_run := collect_legislation ds cfg bill_keywords limit
      let debates_run := collect_debates ds cfg debate_keywords limit
      let state_run := collect_state_of_parties ds cfg request.include_state_of_parties
      let advisories := dedupCapAdvisories
        (bills_run.fst.advisories ++ votes_run.fst.advisories
          ++ legislation_run.fst.advisories ++ debates_run.fst.advisories
          ++ state_run.fst.advisories)
      let response0 : ResearchResponseDto :=
        { summary := "", bills := bills_run.fst.data, debates := debates_run.fst.data,
          legislation := legislation_run.fst.data, votes := votes_run.fst.data,
          mp_speeches := [], state_of_parties := state_run.fst.data,
          advisories := [], cached := false }
      let response :=
        { response0 with
            summary := compose_summary topic response0 advisories,
            advisories := advisories }
      { result := .ok response,
        cache := store_cache cache_tree now cache_key response,
        events := bills_run.snd ++ votes_run.snd ++ legislation_run.snd
          ++ debates_run.snd ++ state_run.snd }

/-- Shared concrete data source whose every fetch succeeds with a JSON
null body (which parses to no results). -/
def trivialDataSource : ParliamentDataSource :=
  { fetch_bills := fun _ => .ok Json.null,
    fetch_core_dataset := fun _ => .ok Json.null,
    fetch_legislation := fun _ => .ok Json.null }

/-- Shared concrete research request. -/
def taxRequest : ResearchRequestDto :=
  { topic := "tax", bill_keywords := [], debate_keywords := [],
    mp_id := none, include_state_of_parties := false, limit := none }

/-- Shared concrete configuration. -/
def zeroConfig : AppConfig := { relevance_threshold := 0 }

/-- serde serialisation of Option<T>. -/
def optJson {a : Type} (f : a → Json) : Option a → Json
  | some value => f value
  | none => Json.null

def BillSummaryDto.toJson (b : BillSummaryDto) : Json :=
  Json.obj [("title", Json.str b.title), ("stage", optJson Json.str b.stage),
    ("last_update", optJson Json.str b.last_update), ("link", optJson Json.str b.link)]

def DebateSummaryDto.toJson (d : DebateSummaryDto) : Json :=
  Json.obj [("title", Json.str d.title), ("house", optJson Json.str d.house),
    ("date", optJson Json.str d.date), ("link", optJson Json.str d.link),
    ("highlight", optJson Json.str d.highlight)]

def LegislationSummaryDto.toJson (l : LegislationSummaryDto) : Json :=
  Json.obj [("title", Json.str l.title), ("year", optJson Json.str l.year),
    ("type", optJson Json.str l.legislation_type), ("uri", optJson Json.str l.uri)]

def VoteSummaryDto.toJson (v : VoteSummaryDto) : Json :=
  Json.obj [("division_number", optJson Json.str v.division_number),
    ("title", Json.str v.title), ("date", optJson Json.str v.date),
    ("ayes", optJson Json.int v.ayes), ("noes", optJson Json.int v.noes),
    ("result", optJson Json.str v.result), ("link", optJson Json.str v.link)]

def SpeechSummaryDto.toJson (s : SpeechSummaryDto) : Json :=
  Json.obj [("member_name", optJson Json.str s.member_name),
    ("date", optJson Json.str s.date), ("excerpt", optJson Json.str s.excerpt),
    ("source", optJson Json.str s.source)]

def PartyBreakdownDto.toJson (p : PartyBreakdownDto) : Json :=
  Json.obj [("name", Json.str p.name), ("seats", optJson Json.int p.seats)]

def StateOfPartiesDto.toJson (s : StateOfPartiesDto) : Json :=
  Json.obj [("total_seats", optJson Json.int s.total_seats),
    ("last_updated", optJson Json.str s.last_updated),
    ("parties", Json.arr (s.parties.map PartyBreakdownDto.toJson))]

/-- serde serialisation of the research response (field order and the
`type` rename follow the derive; no field is skipped). -/
def ResearchResponseDto.toJson (r : ResearchResponseDto) : Json :=
  Json.obj [("summary", Json.str r.summary),
    ("bills", Json.arr (r.bills.map BillSummaryDto.toJson)),
    ("debates", Json.arr (r.debates.map DebateSummaryDto.toJson)),
    ("legislation", Json.arr (r.legislation.map LegislationSummaryDto.toJson)),
    ("votes", Json.arr (r.votes.map VoteSummaryDto.toJson)),
    ("mp_speeches", Json.arr (r.mp_speeches.map SpeechSummaryDto.toJson)),
    ("state_of_parties", optJson StateOfPartiesDto.toJson r.state_of_parties),
    ("advisories", Json.arr (r.advisories.map Json.str)),
    ("cached", Json.bool r.cached)]

/-- The research.run arm of handle_call_tool: a successful handler result
is serialized to JSON (which cannot fail for this DTO), an error passes
through to the dispatch boundary. -/
def research_call_result (r : Except AppError ResearchResponseDto) : Except AppError Json :=
  match r with
  | .ok response => .ok response.toJson
  | .error error => .error error

/-- C7: a research request whose topic is empty after trimming fails with
the bad-request error before any upstream work (no fetch events, cache
untouched), and the dispatcher surfaces that BadRequest as a
protocol-level -32602 error response. -/
theorem C7_empty_topic_bad_request (cfg : AppConfig) (ds : ParliamentDataSource)
    (cache_tree : ResearchCache) (cache_ttl now : Nat) (request : ResearchRequestDto)
    (id : Json) (htopic : strIsEmpty (rustTrim request.topic) = true) :
    (run_research cfg ds cache_tree cache_ttl now request).result
        = .error (AppError.badRequest "topic must not be empty")
    ∧ (run_research cfg ds cache_tree cache_ttl now request).events = []
    ∧ (run_research cfg ds cache_tree cache_ttl now request).cache = cache_tree
    ∧ dispatch_call_result id "research.run"
        (research_call_result (run_research cfg ds cache_tree cache_ttl now request).result)
        = .error (invalid_request_response (some id) (-32602) "topic must not be empty")
    ∧ (invalid_request_response (some id) (-32602) "topic must not be empty").error.code
        = -32602 := by
  have hrun : run_research cfg ds cache_tree cache_ttl now request
      = { result := .error (AppError.badRequest "topic must not be empty"),
          cache := cache_tree, events := [] } := by
    simp [run_research, htopic]
  rw [hrun]
  exact ⟨rfl, rfl, rfl, rfl, rfl⟩

theorem C7_empty_topic_bad_request_witness :
    (run_research zeroConfig trivialDataSource [] 3600 0
        { topic := "   ", bill_keywords := ["nhs"], debate_keywords := [],
          mp_id := none, include_state_of_parties := true, limit := some 3 }).result
      = .error (AppError.badRequest "topic must not be empty")
    ∧ dispatch_call_result (Json.str "9") "research.run"
        (research_call_result (run_research zeroConfig trivialDataSource [] 3600 0
          { topic := "   ", bill_keywords := ["nhs"], debate_keywords := [],
            mp_id := none, include_state_of_parties := true, limit := some 3 }).result)
      = .error (invalid_request_response (some (Json.str "9")) (-32602)
          "topic must not be empty") := by
  have h := C7_empty_topic_bad_request zeroConfig trivialDataSource [] 3600 0
    { topic := "   ", bill_keywords := ["nhs"], debate_keywords := [],
      mp_id := none, include_state_of_parties := true, limit := some 3 }
    (Json.str "9") rfl
  exact ⟨h.1, h.2.2.2.1⟩

theorem retainFirst_sublist (xs : List String) (seen : List String) :
    (retainFirstOccurrences xs seen).Sublist xs := by
  induction xs generalizing seen with
  | nil => simp [retainFirstOccurrences]
  | cons x rest ih =>
    cases h : seen.contains x with
    | true =>
      simp only [retainFirstOccurrences, h, if_true]
      exact (ih seen).cons x
    | false =>
      simp only [retainFirstOccurrences, h, Bool.false_eq_true, if_false]
      exact (ih (x :: seen)).cons₂ x

theorem retainFirst_not_mem_seen (xs : List String) :
    ∀ seen a, a ∈ retainFirstOccurrences xs seen → a ∉ seen := by
  induction xs with
  | nil => intro seen a ha; simp [retainFirstOccurrences] at ha
  | cons x rest ih =>
    intro seen a ha
    cases h : seen.contains x with
    | true =>
      rw [retainFirstOccurrences, h, if_pos rfl] at ha
      exact ih seen a ha
    | false =>
      rw [retainFirstOccurrences, h] at ha
      simp only [Bool.false_eq_true, if_false, List.mem_cons] at ha
      rcases ha with rfl | ha
      · intro hmem
        have : seen.contains a = true := List.elem_eq_true_of_mem hmem
        rw [this] at h
        cases h
      · intro hmem
        exact ih (x :: seen) a ha (List.mem_cons_of_mem x hmem)

theorem retainFirst_nodup (xs : List String) :
    ∀ seen, (retainFirstOccurrences xs seen).Nodup := by
  induction xs with
  | nil => intro seen; simp [retainFirstOccurrences]
  | cons x rest ih =>
    intro seen
    cases h : seen.contains x with
    | true =>
      rw [retainFirstOccurrences, h, if_pos rfl]
      exact ih seen
    | false =>
      rw [retainFirstOccurrences, h]
      simp only [Bool.false_eq_true, if_false]
      refine List.Nodup.cons ?_ (ih (x :: seen))
      intro hmem
      exact retainFirst_not_mem_seen rest (x :: seen) x hmem (List.mem_cons_self x seen)

theorem dedupCap_sublist (xs : List String) : (dedupCapAdvisories xs).Sublist xs := by
  by_cases hempty : xs.isEmpty
  · simp [dedupCapAdvisories, hempty]
  · simp only [dedupCapAdvisories, hempty, Bool.false_eq_true, if_false]
    by_cases hlen : 4 < (retainFirstOccurrences xs []).length
    · simp only [hlen, if_true]
      exact (List.take_sublist 4 (retainFirstOccurrences xs [])).trans (retainFirst_sublist xs [])
    · simp only [hlen, if_false]
      exact retainFirst_sublist xs []

theorem dedupCap_nodup (xs : List String) : (dedupCapAdvisories xs).Nodup := by
  by_cases hempty : xs.isEmpty
  · have : xs = [] := by
      cases xs with
      | nil => rfl
      | cons a l => simp at hempty
    subst this
    simp [dedupCapAdvisories]
  · simp only [dedupCapAdvisories, hempty, Bool.false_eq_true, if_false]
    by_cases hlen : 4 < (retainFirstOccurrences xs []).length
    · simp only [hlen, if_true]
      exact (retainFirst_nodup xs []).sublist (List.take_sublist 4 _)
    · simp only [hlen, if_false]
      exact retainFirst_nodup xs []

theorem dedupCap_length_le (xs : List String) : (dedupCapAdvisories xs).length ≤ 4 := by
  by_cases hempty : xs.isEmpty
  · have : xs = [] := by
      cases xs with
      | nil => rfl
      | cons a l => simp at hempty
    subst this
    simp [dedupCapAdvisories]
  · simp only [dedupCapAdvisories, hempty, Bool.false_eq_true, if_false]
    by_cases hlen : 4 < (retainFirstOccurrences xs []).length
    · simp only [hlen, if_true, List.length_take]
      omega
    · simp only [hlen, if_false]
      omega

/-- The concatenation, in merge order, of the five collectors' advisory
lists for a freshly computed research response. -/
def freshMergedAdvisories (cfg : AppConfig) (ds : ParliamentDataSource)
    (request : ResearchRequestDto) : List String :=
  let topic := rustTrim request.topic
  let bill_keywords := ensure_keywords topic request.bill_keywords
  let debate_keywords := ensure_keywords topic request.debate_keywords
  let limit := coerce_limit request.limit
  (collect_bills ds cfg bill_keywords limit).fst.advisories
    ++ (collect_votes ds cfg bill_keywords limit).fst.advisories
    ++ (collect_legislation ds cfg bill_keywords limit).fst.advisories
    ++ (collect_debates ds cfg debate_keywords limit).fst.advisories
    ++ (collect_state_of_parties ds cfg request.include_state_of_parties).fst.advisories

/-- C8: the advisory list of a freshly computed research response is the
stable deduplication (first occurrence wins) of the merged collector
advisories taken in the order bills, votes, legislation, debates,
parties, capped at 4 entries: it is a duplicate-free, order-preserving
sublist of the merged list of length at most 4. -/
theorem C8_advisories_dedup_cap (cfg : AppConfig) (ds : ParliamentDataSource)
    (cache_tree : ResearchCache) (cache_ttl now : Nat) (request : ResearchRequestDto)
    (htopic : strIsEmpty (rustTrim request.topic) = false)
    (hmiss : try_get_cached cache_tree cache_ttl now (build_cache_key request) = none) :
    ∀ response, (run_research cfg ds cache_tree cache_ttl now request).result = .ok response →
      response.advisories = dedupCapAdvisories (freshMergedAdvisories cfg ds request)
      ∧ response.advisories.Sublist (freshMergedAdvisories cfg ds request)
      ∧ response.advisories.Nodup
      ∧ response.advisories.length ≤ 4 := by
  intro response hres
  simp only [run_research, htopic, Bool.false_eq_true, if_false, hmiss] at hres
  rw [Except.ok.injEq] at hres
  have hadv : response.advisories = dedupCapAdvisories (freshMergedAdvisories cfg ds request) := by
    rw [← hres]
    simp only [freshMergedAdvisories]
  refine ⟨hadv, ?_, ?_, ?_⟩
  · rw [hadv]; exact dedupCap_sublist _
  · rw [hadv]; exact dedupCap_nodup _
  · rw [hadv]; exact dedupCap_length_le _

/-- The payload of a successful result (used to state witnesses). -/
def okResponse (r : Except AppError ResearchResponseDto) : ResearchResponseDto :=
  match r with
  | .ok response => response
  | .error _ => default

theorem C8_advisories_dedup_cap_witness :
    (okResponse (run_research zeroConfig trivialDataSource [] 3600 0 taxRequest).result).advisories
      = dedupCapAdvisories (freshMergedAdvisories zeroConfig trivialDataSource taxRequest)
    ∧ (okResponse (run_research zeroConfig trivialDataSource [] 3600 0 taxRequest).result).advisories.Nodup
    ∧ (okResponse (run_research zeroConfig trivialDataSource [] 3600 0 taxRequest).result).advisories.length
      ≤ 4 := by
  have h := C8_advisories_dedup_cap zeroConfig trivialDataSource [] 3600 0 taxRequest rfl rfl
    (okResponse (run_research zeroConfig trivialDataSource [] 3600 0 taxRequest).result) rfl
  exact ⟨h.1, h.2.2.1, h.2.2.2⟩

/-- C10: a freshly computed research response always has an empty
mpSpeeches list, and the optional mpId argument influences only the
durable-cache key: two requests differing only in mpId produce identical
results and identical upstream fetch sequences. -/
theorem C10_mp_id_only_cache_key (cfg : AppConfig) (ds : ParliamentDataSource)
    (cache_tree : ResearchCache) (cache_ttl now : Nat) (request : ResearchRequestDto)
    (mp1 mp2 : Option Nat)
    (htopic : strIsEmpty (rustTrim request.topic) = false)
    (hmiss1 : try_get_cached cache_tree cache_ttl now
      (build_cache_key { request with mp_id := mp1 }) = none)
    (hmiss2 : try_get_cached cache_tree cache_ttl now
      (build_cache_key { request with mp_id := mp2 }) = none) :
    (run_research cfg ds cache_tree cache_ttl now { request with mp_id := mp1 }).result
      = (run_research cfg ds cache_tree cache_ttl now { request with mp_id := mp2 }).result
    ∧ (run_research cfg ds cache_tree cache_ttl now { request with mp_id := mp1 }).events
      = (run_research cfg ds cache_tree cache_ttl now { request with mp_id := mp2 }).events
    ∧ ∀ response,
        (run_research cfg ds cache_tree cache_ttl now { request with mp_id := mp1 }).result
          = .ok response → response.mp_speeches = [] := by
  refine ⟨?_, ?_, ?_⟩
  · simp only [run_research, htopic, Bool.false_eq_true, if_false, hmiss1, hmiss2]
  · simp only [run_research, htopic, Bool.false_eq_true, if_false, hmiss1, hmiss2]
  · intro response hres
    simp only [run_research, htopic, Bool.false_eq_true, if_false, hmiss1] at hres
    rw [Except.ok.injEq] at hres
    rw [← hres]

theorem C10_mp_id_only_cache_key_witness :
    (run_research zeroConfig trivialDataSource [] 3600 0
        { taxRequest with mp_id := some 7 }).result
      = (run_research zeroConfig trivialDataSource [] 3600 0
        { taxRequest with mp_id := none }).result
    ∧ (run_research zeroConfig trivialDataSource [] 3600 0
        { taxRequest with mp_id := some 7 }).events
      = (run_research zeroConfig trivialDataSource [] 3600 0
        { taxRequest with mp_id := none }).events
    ∧ (okResponse (run_research zeroConfig trivialDataSource [] 3600 0
        { taxRequest with mp_id := some 7 }).result).mp_speeches = [] := by
  have h := C10_mp_id_only_cache_key zeroConfig trivialDataSource [] 3600 0 taxRequest
    (some 7) none rfl rfl rfl
  exact ⟨h.1, h.2.1, h.2.2 _ rfl⟩

theorem cacheLookup_cacheInsert_self (tree : ResearchCache) (key : String)
    (entry : CachedResearchEntry) :
    cacheLookup (cacheInsert tree key entry) key = some entry := by
  simp [cacheLookup, cacheInsert, List.find?_cons]

theorem try_get_cached_after_store {tree : ResearchCache} {key : String}
    {resp : ResearchResponseDto} {ttl t1 t2 : Nat} (httl : t2 - t1 ≤ ttl) :
    try_get_cached (store_cache tree t1 key resp) ttl t2 key
      = some { resp with cached := false } := by
  simp [try_get_cached, store_cache, cacheLookup_cacheInsert_self, httl]

/-- C1 (amended): running the same research request twice with identical
normalized inputs, the first call (on a cache with no entry for the key)
returns `cached = false`; a second call within the research TTL is served
from the durable cache with `cached = true` and bills/votes/legislation/
debates content identical to the first response, and performs no upstream
fetches at all — so the per-category fetch counts across both calls equal
those of the first call alone. -/
theorem C1_research_cache_roundtrip (cfg : AppConfig) (ds : ParliamentDataSource)
    (cache0 : ResearchCache) (ttl t1 t2 : Nat) (request : ResearchRequestDto)
    (htopic : strIsEmpty (rustTrim request.topic) = false)
    (hmiss : try_get_cached cache0 ttl t1 (build_cache_key request) = none)
    (httl : t2 - t1 ≤ ttl) :
    ((run_research cfg ds cache0 ttl t1 request).result.map (fun r => r.cached)
        = .ok false)
    ∧ ((run_research cfg ds (run_research cfg ds cache0 ttl t1 request).cache ttl t2
          request).result.map (fun r => r.cached) = .ok true)
    ∧ ((run_research cfg ds (run_research cfg ds cache0 ttl t1 request).cache ttl t2
          request).result.map (fun r => (r.bills, r.votes, r.legislation, r.debates))
        = (run_research cfg ds cache0 ttl t1 request).result.map
            (fun r => (r.bills, r.votes, r.legislation, r.debates)))
    ∧ (run_research cfg ds (run_research cfg ds cache0 ttl t1 request).cache ttl t2
        request).events = [] := by
  refine ⟨?_, ?_, ?_, ?_⟩
  · simp only [run_research, htopic, Bool.false_eq_true, if_false, hmiss, Except.map]
  · simp only [run_research, htopic, Bool.false_eq_true, if_false, hmiss,
      try_get_cached_after_store httl, Except.map]
  · simp only [run_research, htopic, Bool.false_eq_true, if_false, hmiss,
      try_get_cached_after_store httl, Except.map]
  · simp only [run_research, htopic, Bool.false_eq_true, if_false, hmiss,
      try_get_cached_after_store httl]

/-- C1 counterexample: with a data source whose bills endpoint succeeds
but returns no parseable results, the first call alone invokes the bills
fetch path twice (strict-relevance then lenient variant for the single
search term), so across the two calls the bills category is fetched more
than once, refuting the claim's "at most once" clause; the second call
itself still performs no fetches. -/
theorem C1_fetch_once_counterexample :
    ¬ (((run_research zeroConfig trivialDataSource [] 3600 0 taxRequest).events
        ++ (run_research zeroConfig trivialDataSource
            (run_research zeroConfig trivialDataSource [] 3600 0 taxRequest).cache
            3600 1 taxRequest).events).countP FetchEvent.isBills ≤ 1)
    ∧ ((run_research zeroConfig trivialDataSource [] 3600 0 taxRequest).events
        ++ (run_research zeroConfig trivialDataSource
            (run_research zeroConfig trivialDataSource [] 3600 0 taxRequest).cache
            3600 1 taxRequest).events).countP FetchEvent.isBills = 2 := by
  constructor
  · decide
  · decide

theorem C1_research_cache_roundtrip_witness :
    ((run_research zeroConfig trivialDataSource [] 3600 0 taxRequest).result.map
        (fun r => r.cached) = .ok false)
    ∧ ((run_research zeroConfig trivialDataSource
          (run_research zeroConfig trivialDataSource [] 3600 0 taxRequest).cache 3600 1
          taxRequest).result.map (fun r => r.cached) = .ok true)
    ∧ ((run_research zeroConfig trivialDataSource
          (run_research zeroConfig trivialDataSource [] 3600 0 taxRequest).cache 3600 1
          taxRequest).result.map (fun r => (r.bills, r.votes, r.legislation, r.debates))
        = (run_research zeroConfig trivialDataSource [] 3600 0 taxRequest).result.map
            (fun r => (r.bills, r.votes, r.legislation, r.debates)))
    ∧ (run_research zeroConfig trivialDataSource
        (run_research zeroConfig trivialDataSource [] 3600 0 taxRequest).cache 3600 1
        taxRequest).events = [] := by
  exact C1_research_cache_roundtrip zeroConfig trivialDataSource [] 3600 0 1 taxRequest
    rfl rfl (by decide)

/-! ## Protocol dispatcher session machine (src/features/mcp/service.rs)

The two tool-layer sub-handlers (handle_list_tools / handle_call_tool) sit
behind the readiness gate and are abstracted as a `ToolHandlers` record;
`handle_jsonrpc` records, in `invoked`, which of them it entered.  The
`env!` build metadata in the initialize result is embedded as constants.
The serde error text inside the "invalid initialize params" message is
abstracted away (no claim inspects it). -/

def Json.is_null : Json → Bool
  | .null => true
  | _ => false

def SUPPORTED_PROTOCOL_VERSIONS : List String :=
  ["2025-06-26", "2025-06-18", "2025-03-26", "1.1", "1.0"]

def PROTOCOL_VERSION_1_1_ALIASES : List String :=
  ["2025-06-26", "2025-06-18", "2025-03-26", "1.1"]

/-- McpService::protocol_headers_compatible. -/
def protocol_headers_compatible (a b : String) : Bool :=
  a == b
    || (PROTOCOL_VERSION_1_1_ALIASES.contains a && PROTOCOL_VERSION_1_1_ALIASES.contains b)

/-- McpService::negotiate_protocol_version. -/
def negotiate_protocol_version (requested : String) : Option String :=
  if SUPPORTED_PROTOCOL_VERSIONS.any (fun v => v == requested) then some requested
  else if PROTOCOL_VERSION_1_1_ALIASES.any (fun alias1 => alias1 == requested) then some "1.1"
  else none

structure McpSession where
  negotiated_protocol : Option String
  initialize_called : Bool
  client_ready : Bool
deriving DecidableEq

structure JsonRpcRequest where
  jsonrpc : String
  id : Option Json
  method : String
  params : Option Json

structure ClientInfo where
  name : String
  version : String
deriving DecidableEq

structure InitializeParams where
  protocol_version : String
  client_info : ClientInfo
  capabilities : Json

/-- Serde deserialisation of ClientInfo (string name and version). -/
def parseClientInfo (value : Json) : Option ClientInfo :=
  match (value.get "name").bind Json.as_str, (value.get "version").bind Json.as_str with
  | some name, some version => some { name := name, version := version }
  | _, _ => none

/-- Serde deserialisation of InitializeParams: the renamed required
fields protocolVersion (string), clientInfo, capabilities (any value). -/
def parseInitializeParams (value : Json) : Option InitializeParams :=
  match (value.get "protocolVersion").bind Json.as_str with
  | none => none
  | some protocol_version =>
    match (value.get "clientInfo").bind parseClientInfo with
    | none => none
    | some client_info =>
      match value.get "capabilities" with
      | none => none
      | some capabilities =>
        some { protocol_version := protocol_version, client_info := client_info,
               capabilities := capabilities }

/-- McpService::require_request_id. -/
def require_request_id (id : Option Json) (method : String) :
    Except JsonRpcErrorResponse Json :=
  match id with
  | some value =>
    if value.is_null then
      .error (invalid_request_response id (-32600) (method ++ " requires a non-null id"))
    else .ok value
  | none => .error (invalid_request_response id (-32600) (method ++ " requires a non-null id"))

/-- McpService::ensure_ready. -/
def ensure_ready (s : McpSession) (id : Option Json) : Except JsonRpcErrorResponse Unit :=
  if s.initialize_called = false then
    .error (invalid_request_response id (-32002)
      "client must call initialize before invoking this method")
  else if s.client_ready = false then
    .error (invalid_request_response id (-32002)
      "client must send the initialized notification before invoking this method")
  else .ok ()

/-- McpService::ensure_initialized. -/
def ensure_initialized (s : McpSession) (id : Option Json) :
    Except JsonRpcErrorResponse Unit :=
  if s.initialize_called = false then
    .error (invalid_request_response id (-32002)
      "client must call initialize before invoking this method")
  else .ok ()

/-- McpService::ensure_protocol_header: rejects with the not-ready code
when no version was negotiated yet; accepts a missing header; otherwise
requires alias-compatibility with the negotiated version. -/
def ensure_protocol_header (s : McpSession) (header : Option String) (id : Option Json) :
    Except JsonRpcErrorResponse Unit :=
  match s.negotiated_protocol with
  | none =>
    .error (invalid_request_response id (-32002)
      "client must call initialize before invoking this method")
  | some expected =>
    match header with
    | some value =>
      if protocol_headers_compatible value expected then .ok ()
      else
        .error (invalid_request_response id (-32600)
          ("MCP-Protocol-Version header mismatch: expected " ++ expected
            ++ ", received " ++ value))
    | none => .ok ()

/-- Build metadata baked in via env! at compile time. -/
def CARGO_PKG_NAME : String := "mp-writer-mcp-server"

def CARGO_PKG_VERSION : String := "0.1.0"

def initializeResult (negotiated : String) : Json :=
  Json.obj [("protocolVersion", Json.str negotiated),
    ("serverInfo", Json.obj [("name", Json.str CARGO_PKG_NAME),
      ("version", Json.str CARGO_PKG_VERSION),
      ("description", Json.str "Model Context Protocol server for UK Parliament research")]),
    ("capabilities", Json.obj [("tools", Json.obj [("listChanged", Json.bool false)])]),
    ("instructions", Json.str "Call the initialized notification after a successful initialize response, then use tools/list to discover available tools.")]

/-- McpService::handle_initialize: on success returns the response and the
updated session (negotiated version recorded, initialize_called set,
client_ready reset to false). -/
def handle_initialize (_s : McpSession) (id : Json) (params : Option Json)
    (header_version : String) : Except JsonRpcErrorResponse (JsonRpcSuccess × McpSession) :=
  match params with
  | none => .error (invalid_request_response (some id) (-32602) "missing initialize params")
  | some value =>
    match parseInitializeParams value with
    | none => .error (invalid_request_response (some id) (-32602) "invalid initialize params")
    | some parsed =>
      if protocol_headers_compatible parsed.protocol_version header_version = false then
        .error (invalid_request_response (some id) (-32600)
          ("MCP-Protocol-Version header mismatch: payload requested "
            ++ parsed.protocol_version ++ " but header provided " ++ header_version))
      else
        match negotiate_protocol_version parsed.protocol_version with
        | none =>
          .error (invalid_request_response (some id) (-32600)
            ("unsupported protocolVersion: " ++ parsed.protocol_version))
        | some negotiated =>
          if parsed.capabilities.is_object = false then
            .error (invalid_request_response (some id) (-32602) "capabilities must be an object")
          else
            .ok ({ jsonrpc := JSON_RPC_VERSION, id := id, result := initializeResult negotiated },
              { negotiated_protocol := some negotiated, initialize_called := true,
                client_ready := false })

/-- McpService::handle_initialized_notification. -/
def handle_initialized_notification (s : McpSession) : McpSession :=
  if s.initialize_called = false then s
  else { s with client_ready := true }

/-- McpService::handle_ping. -/
def handle_ping (id : Json) : JsonRpcSuccess :=
  { jsonrpc := JSON_RPC_VERSION, id := id, result := Json.obj [("ok", Json.bool true)] }

/-- The tool-layer sub-handlers behind the readiness gate. -/
structure ToolHandlers where
  list_tools : Json → Option Json → Except JsonRpcErrorResponse JsonRpcSuccess
  call_tool : Json → Option Json → Except JsonRpcErrorResponse JsonRpcSuccess

structure DispatchRun where
  output : Except JsonRpcErrorResponse (Option JsonRpcSuccess)
  session : McpSession
  invoked : List String

/-- McpService::handle_jsonrpc. -/
def handle_jsonrpc (handlers : ToolHandlers) (s : McpSession) (request : JsonRpcRequest)
    (header : Option String) : DispatchRun :=
  if request.jsonrpc != JSON_RPC_VERSION then
    { output := .error (invalid_request_response request.id (-32600)
        ("unsupported jsonrpc version: " ++ request.jsonrpc)),
      session := s, invoked := [] }
  else
    match request.method with
    | "initialize" =>
      match require_request_id request.id "initialize" with
      | .error e => { output := .error e, session := s, invoked := [] }
      | .ok request_id =>
        match header with
        | none =>
          { output := .error (invalid_request_response (some request_id) (-32600)
              "initialize requires MCP-Protocol-Version header"),
            session := s, invoked := [] }
        | some header_version =>
          match handle_initialize s request_id request.params header_version with
          | .error e => { output := .error e, session := s, invoked := [] }
          | .ok (success, s1) => { output := .ok (some success), session := s1, invoked := [] }
    | "notifications/initialized" | "initialized" =>
      match header with
      | some _ =>
        match ensure_protocol_header s header request.id with
        | .error e => { output := .error e, session := s, invoked := [] }
        | .ok _ =>
          { output := .ok none, session := handle_initialized_notification s, invoked := [] }
      | none =>
        { output := .ok none, session := handle_initialized_notification s, invoked := [] }
    | "list_tools" | "tools/list" =>
      match require_request_id request.id "tools/list" with
      | .error e => { output := .error e, session := s, invoked := [] }
      | .ok request_id =>
        match ensure_protocol_header s header (some request_id) with
        | .error e => { output := .error e, session := s, invoked := [] }
        | .ok _ =>
          match ensure_ready s (some request_id) with
          | .error e => { output := .error e, session := s, invoked := [] }
          | .ok _ =>
            match handlers.list_tools request_id request.params with
            | .error e => { output := .error e, session := s, invoked := ["tools/list"] }
            | .ok success =>
              { output := .ok (some success), session := s, invoked := ["tools/list"] }
    | "call_tool" | "tools/call" =>
      match require_request_id request.id "tools/call" with
      | .error e => { output := .error e, session := s, invoked := [] }
      | .ok request_id =>
        match ensure_protocol_header s header (some request_id) with
        | .error e => { output := .error e, session := s, invoked := [] }
        | .ok _ =>
          match ensure_ready s (some request_id) with
          | .error e => { output := .error e, session := s, invoked := [] }
          | .ok _ =>
            match handlers.call_tool request_id request.params with
            | .error e => { output := .error e, session := s, invoked := ["tools/call"] }
            | .ok success =>
              { output := .ok (some success), session := s, invoked := ["tools/call"] }
    | "ping" =>
      match require_request_id request.id "ping" with
      | .error e => { output := .error e, session := s, invoked := [] }
      | .ok request_id =>
        match ensure_protocol_header s header (some request_id) with
        | .error e => { output := .error e, session := s, invoked := [] }
        | .ok _ =>
          match ensure_initialized s (some request_id) with
          | .error e => { output := .error e, session := s, invoked := [] }
          | .ok _ =>
            { output := .ok (some (handle_ping request_id)), session := s, invoked := [] }
    | other =>
      { output := .error (invalid_request_response request.id (-32601)
          ("unknown method: " ++ other)),
        session := s, invoked := [] }

/-- The error code of a dispatch output, when it is an error response. -/
def outputErrorCode : Except JsonRpcErrorResponse (Option JsonRpcSuccess) → Option Int
  | .error resp => some resp.error.code
  | .ok _ => none

/-- Shared trivial tool handlers. -/
def dummyHandlers : ToolHandlers :=
  { list_tools := fun id _ => .ok { jsonrpc := "2.0", id := id, result := Json.null },
    call_tool := fun id _ => .ok { jsonrpc := "2.0", id := id, result := Json.null } }

/-- C2 counterexample: an unknown method sent to a session that is not
Ready is rejected with -32601 (method not found), not with the not-ready
code -32002, so the claim's blanket "-32002 for every non-handshake,
non-ping method while not Ready" fails for unknown methods. -/
theorem C2_not_ready_counterexample :
    (handle_jsonrpc dummyHandlers
        { negotiated_protocol := none, initialize_called := false, client_ready := false }
        { jsonrpc := "2.0", id := some (Json.str "1"), method := "bogus/method", params := none }
        none).output
      = .error (invalid_request_response (some (Json.str "1")) (-32601)
          "unknown method: bogus/method")
    ∧ (-32601 : Int) ≠ -32002 := by
  constructor
  · rfl
  · decide

/-- C2 (amended): a list-tools or call-tool request (jsonrpc "2.0",
non-null id, protocol-version header absent or alias-compatible with the
negotiated version when one exists) issued while the session is not Ready
is rejected with code -32002 and neither tool sub-handler is invoked;
a ping is accepted whenever initialize has completed (a version is
negotiated and initialize_called holds), even before the initialized
notification. -/
theorem C2_not_ready_rejection (handlers : ToolHandlers) (s : McpSession) (id : Json)
    (params : Option Json) (method : String) (header : Option String)
    (hmethod : method = "list_tools" ∨ method = "tools/list"
      ∨ method = "call_tool" ∨ method = "tools/call")
    (hid : id.is_null = false)
    (hnotready : s.initialize_called = false ∨ s.client_ready = false)
    (hheader : ∀ expected value, s.negotiated_protocol = some expected →
      header = some value → protocol_headers_compatible value expected = true) :
    outputErrorCode (handle_jsonrpc handlers s
        { jsonrpc := "2.0", id := some id, method := method, params := params } header).output
      = some (-32002)
    ∧ (handle_jsonrpc handlers s
        { jsonrpc := "2.0", id := some id, method := method, params := params } header).invoked
      = []
    ∧ (∀ version, s.negotiated_protocol = some version → s.initialize_called = true →
        (handle_jsonrpc handlers s
            { jsonrpc := "2.0", id := some id, method := "ping", params := params }
            header).output
          = .ok (some (handle_ping id))) := by
  have hhdr : ensure_protocol_header s header (some id)
      = .ok () ∨ (∃ msg, ensure_protocol_header s header (some id)
        = .error (invalid_request_response (some id) (-32002) msg)) := by
    cases hneg : s.negotiated_protocol with
    | none =>
      exact Or.inr ⟨"client must call initialize before invoking this method",
        by simp [ensure_protocol_header, hneg]⟩
    | some expected =>
      cases hhd : header with
      | none => exact Or.inl (by simp [ensure_protocol_header, hneg, hhd])
      | some value =>
        have := hheader expected value hneg hhd
        exact Or.inl (by simp [ensure_protocol_header, hneg, hhd, this])
  have hready : ∃ msg, ensure_ready s (some id)
      = .error (invalid_request_response (some id) (-32002) msg) := by
    rcases hnotready with h | h
    · exact ⟨"client must call initialize before invoking this method",
        by simp [ensure_ready, h]⟩
    · cases hinit : s.initialize_called with
      | false =>
        exact ⟨"client must call initialize before invoking this method",
          by simp [ensure_ready, hinit]⟩
      | true =>
        exact ⟨"client must send the initialized notification before invoking this method",
          by simp [ensure_ready, hinit, h]⟩
  have hreq : require_request_id (some id) "tools/list" = .ok id := by
    simp [require_request_id, hid]
  have hreqc : require_request_id (some id) "tools/call" = .ok id := by
    simp [require_request_id, hid]
  have hreqp : require_request_id (some id) "ping" = .ok id := by
    simp [require_request_id, hid]
  obtain ⟨msg, hmsg⟩ := hready
  refine ⟨?_, ?_, ?_⟩
  · rcases hmethod with rfl | rfl | rfl | rfl <;>
    · rcases hhdr with hok | ⟨msg2, herr⟩
      · simp [handle_jsonrpc, JSON_RPC_VERSION, hreq, hreqc, hok, hmsg, outputErrorCode,
          invalid_request_response]
      · simp [handle_jsonrpc, JSON_RPC_VERSION, hreq, hreqc, herr, outputErrorCode,
          invalid_request_response]
  · rcases hmethod with rfl | rfl | rfl | rfl <;>
    · rcases hhdr with hok | ⟨msg2, herr⟩
      · simp [handle_jsonrpc, JSON_RPC_VERSION, hreq, hreqc, hok, hmsg]
      · simp [handle_jsonrpc, JSON_RPC_VERSION, hreq, hreqc, herr]
  · intro version hneg hinit
    have hok : ensure_protocol_header s header (some id) = .ok () := by
      cases hhd : header with
      | none => simp [ensure_protocol_header, hneg, hhd]
      | some value =>
        have := hheader version value hneg hhd
        simp [ensure_protocol_header, hneg, hhd, this]
    simp [handle_jsonrpc, JSON_RPC_VERSION, hreqp, hok, ensure_initialized, hinit]

theorem C2_not_ready_rejection_witness :
    outputErrorCode (handle_jsonrpc dummyHandlers
        { negotiated_protocol := some "1.1", initialize_called := true, client_ready := false }
        { jsonrpc := "2.0", id := some (Json.str "2"), method := "tools/list", params := none }
        none).output
      = some (-32002)
    ∧ (handle_jsonrpc dummyHandlers
        { negotiated_protocol := some "1.1", initialize_called := true, client_ready := false }
        { jsonrpc := "2.0", id := some (Json.str "2"), method := "tools/list", params := none }
        none).invoked = []
    ∧ (handle_jsonrpc dummyHandlers
        { negotiated_protocol := some "1.1", initialize_called := true, client_ready := false }
        { jsonrpc := "2.0", id := some (Json.str "2"), method := "ping", params := none }
        none).output
      = .ok (some (handle_ping (Json.str "2"))) := by
  have h := C2_not_ready_rejection dummyHandlers
    { negotiated_protocol := some "1.1", initialize_called := true, client_ready := false }
    (Json.str "2") none "tools/list" none (Or.inr (Or.inl rfl)) rfl (Or.inr rfl)
    (fun expected value _ hv => nomatch hv)
  exact ⟨h.1, h.2.1, h.2.2 "1.1" rfl rfl⟩

/-- C9: every successful initialize — including a repeat initialize on an
already-Ready session — stores the negotiated version, sets
initialize_called, and resets client_ready to false, so that list-tools
and call-tool requests are rejected with the not-ready code -32002 (and
neither sub-handler runs) until a new initialized notification makes the
session Ready again. -/
theorem C9_reinitialize_resets_ready (handlers : ToolHandlers) (s : McpSession) (id : Json)
    (params_json : Json) (parsed : InitializeParams) (header_version : String)
    (followup_params : Option Json) (negotiated : String)
    (hid : id.is_null = false)
    (hparse : parseInitializeParams params_json = some parsed)
    (hcompat : protocol_headers_compatible parsed.protocol_version header_version = true)
    (hneg : negotiate_protocol_version parsed.protocol_version = some negotiated)
    (hcaps : parsed.capabilities.is_object = true) :
    (handle_jsonrpc handlers s
        { jsonrpc := "2.0", id := some id, method := "initialize",
          params := some params_json } (some header_version)).output
      = .ok (some { jsonrpc := JSON_RPC_VERSION, id := id,
                    result := initializeResult negotiated })
    ∧ (handle_jsonrpc handlers s
        { jsonrpc := "2.0", id := some id, method := "initialize",
          params := some params_json } (some header_version)).session
      = { negotiated_protocol := some negotiated, initialize_called := true,
          client_ready := false }
    ∧ outputErrorCode (handle_jsonrpc handlers
        { negotiated_protocol := some negotiated, initialize_called := true,
          client_ready := false }
        { jsonrpc := "2.0", id := some id, method := "tools/list",
          params := followup_params } none).output = some (-32002)
    ∧ (handle_jsonrpc handlers
        { negotiated_protocol := some negotiated, initialize_called := true,
          client_ready := false }
        { jsonrpc := "2.0", id := some id, method := "tools/list",
          params := followup_params } none).invoked = []
    ∧ outputErrorCode (handle_jsonrpc handlers
        { negotiated_protocol := some negotiated, initialize_called := true,
          client_ready := false }
        { jsonrpc := "2.0", id := some id, method := "tools/call",
          params := followup_params } none).output = some (-32002)
    ∧ (handle_jsonrpc handlers
        { negotiated_protocol := some negotiated, initialize_called := true,
          client_ready := false }
        { jsonrpc := "2.0", id := some id, method := "tools/call",
          params := followup_params } none).invoked = []
    ∧ (handle_jsonrpc handlers
        { negotiated_protocol := some negotiated, initialize_called := true,
          client_ready := false }
        { jsonrpc := "2.0", id := none, method := "initialized", params := none }
        none).session
      = { negotiated_protocol := some negotiated, initialize_called := true,
          client_ready := true } := by
  have hreq : require_request_id (some id) "initialize" = .ok id := by
    simp [require_request_id, hid]
  have hreql : require_request_id (some id) "tools/list" = .ok id := by
    simp [require_request_id, hid]
  have hreqc : require_request_id (some id) "tools/call" = .ok id := by
    simp [require_request_id, hid]
  have hinit : handle_initialize s id (some params_json) header_version
      = .ok ({ jsonrpc := JSON_RPC_VERSION, id := id, result := initializeResult negotiated },
          { negotiated_protocol := some negotiated, initialize_called := true,
            client_ready := false }) := by
    simp [ handle_initialize, hparse, hcompat, hneg, hcaps]
  refine ⟨?_, ?_, ?_, ?_, ?_, ?_, ?_⟩
  · simp [handle_jsonrpc, JSON_RPC_VERSION, hreq, hinit]
  · simp [handle_jsonrpc, JSON_RPC_VERSION, hreq, hinit]
  · simp [handle_jsonrpc, JSON_RPC_VERSION, hreql, ensure_protocol_header, ensure_ready,
      outputErrorCode, invalid_request_response]
  · simp [handle_jsonrpc, JSON_RPC_VERSION, hreql, ensure_protocol_header, ensure_ready]
  · simp [handle_jsonrpc, JSON_RPC_VERSION, hreqc, ensure_protocol_header, ensure_ready,
      outputErrorCode, invalid_request_response]
  · simp [handle_jsonrpc, JSON_RPC_VERSION, hreqc, ensure_protocol_header, ensure_ready]
  · simp [handle_jsonrpc, JSON_RPC_VERSION, handle_initialized_notification]

theorem C9_reinitialize_resets_ready_witness :
    (handle_jsonrpc dummyHandlers
        { negotiated_protocol := some "1.1", initialize_called := true, client_ready := true }
        { jsonrpc := "2.0", id := some (Json.str "5"), method := "initialize",
          params := some (Json.obj [("protocolVersion", Json.str "1.1"),
            ("clientInfo", Json.obj [("name", Json.str "client"),
              ("version", Json.str "1.0")]),
            ("capabilities", Json.obj [])]) } (some "1.1")).session
      = { negotiated_protocol := some "1.1", initialize_called := true,
          client_ready := false }
    ∧ outputErrorCode (handle_jsonrpc dummyHandlers
        { negotiated_protocol := some "1.1", initialize_called := true,
          client_ready := false }
        { jsonrpc := "2.0", id := some (Json.str "5"), method := "tools/list",
          params := none } none).output = some (-32002)
    ∧ (handle_jsonrpc dummyHandlers
        { negotiated_protocol := some "1.1", initialize_called := true,
          client_ready := false }
        { jsonrpc := "2.0", id := none, method := "initialized", params := none }
        none).session
      = { negotiated_protocol := some "1.1", initialize_called := true,
          client_ready := true } := by
  have h := C9_reinitialize_resets_ready dummyHandlers
    { negotiated_protocol := some "1.1", initialize_called := true, client_ready := true }
    (Json.str "5")
    (Json.obj [("protocolVersion", Json.str "1.1"),
      ("clientInfo", Json.obj [("name", Json.str "client"), ("version", Json.str "1.0")]),
      ("capabilities", Json.obj [])])
    { protocol_version := "1.1",
      client_info := { name := "client", version := "1.0" },
      capabilities := Json.obj [] }
    "1.1" none "1.1" rfl rfl rfl rfl rfl
  exact ⟨h.2.1, h.2.2.1, h.2.2.2.2.2.2⟩
